import Mathlib

/-!
SourceReferenceFormatter (liblangutil/SourceReferenceFormatter.cpp)

A shallow embedding of the member functions `printSourceLocation`,
`printSourceName` and `printExceptionInformation` of
`SourceReferenceFormatter`, and the properties of the rendered diagnostic.

Conventions of the embedding.

* A `std::string` is a list of characters (`Str`); one `Char` stands for one
  code unit.
* The output stream `m_stream` is the list of items written to it, in order:
  a termcolor manipulator or one character (`Tok`).  A member function returns
  the items it appends to the stream.
* C++ `int` is `Int`.  Columns, lengths and line numbers are far below `2^31`
  for every string that fits in memory, so no wrap-around is modelled.
* An operation of the standard library that throws, or whose behaviour is
  undefined, makes the member function return `Except.error`; the stream
  content at that moment is not modelled (inside one `<<` chain the order in
  which the operands are evaluated is not fixed before C++17).
-/

namespace langutil

/-- The text type: `std::string` as a list of code units. -/
abbrev Str := List Char

/-- What can go wrong inside the standard-library calls of the formatter. -/
inductive FormatError where
  /-- The exception `std::out_of_range`, thrown by `basic_string::substr` when `pos > size()`. -/
  | outOfRange
  /-- The exception `std::length_error`, thrown by `std::string(count, ch)` when `count`
  exceeds `max_size()`; a negative `int` converts to such a `size_t`. -/
  | lengthError
  /-- Undefined behaviour: `static_cast<int>` of a value that is not finite
  (`log10(0)` is minus infinity, `log10` of a negative number is NaN). -/
  | undefinedConversion
  /-- Undefined behaviour: an iterator range that leaves the string. -/
  | iteratorRange
  /-- The scanner lookup callback failed (unknown source name). -/
  | unknownSource
  deriving DecidableEq, Repr

deriving instance DecidableEq for Except

/-- An item written to `m_stream`: a termcolor manipulator or a character. -/
inductive Tok where
  | bold
  | blue
  | white
  | red
  | yellow
  | reset
  | ch (c : Char)
  deriving DecidableEq, Repr

/-- Writing a string to the stream: `m_stream << s`. -/
def put (s : Str) : List Tok := s.map Tok.ch

/-- The manipulator `frameColor`: `os << termcolor::bold << termcolor::blue`. -/
def frameColor : List Tok := [Tok.bold, Tok.blue]

/-- The manipulator `messageColor`: `os << termcolor::bold << termcolor::white`. -/
def messageColor : List Tok := [Tok.bold, Tok.white]

/-- The manipulator `errorColor`: `os << termcolor::bold << termcolor::red`. -/
def errorColor : List Tok := [Tok.bold, Tok.red]

/-- The manipulator `diagColor`: `os << termcolor::bold << termcolor::yellow`. -/
def diagColor : List Tok := [Tok.bold, Tok.yellow]

/-- The manipulator `highlightColor`: `os << termcolor::yellow`. -/
def highlightColor : List Tok := [Tok.yellow]

/-- The text of an output with the style markers left out. -/
def plain : List Tok → Str
  | [] => []
  | Tok.ch c :: rest => c :: plain rest
  | _ :: rest => plain rest

/-! ## Standard-library operations used by the formatter -/

/-- The call `s.substr(pos, n)` with `int` arguments.  The arguments convert to `size_t`:
a negative `pos` becomes larger than any size, so the call throws like every
`pos > size()`; a negative `n` becomes larger than any size, so the rest of the
string from `pos` is returned. -/
def substr (s : Str) (pos : Int) (n : Int) : Except FormatError Str :=
  if pos < 0 ∨ (s.length : Int) < pos then .error .outOfRange
  else if n < 0 then .ok (s.drop pos.toNat)
  else .ok ((s.drop pos.toNat).take n.toNat)

/-- The call `s.substr(pos)`: the rest of the string from `pos`; throws when
`pos > size()` (a negative `int` converts to such a `size_t`). -/
def substrFrom (s : Str) (pos : Int) : Except FormatError Str :=
  if pos < 0 ∨ (s.length : Int) < pos then .error .outOfRange
  else .ok (s.drop pos.toNat)

/-- The constructor `std::string(count, c)` with an `int` count: a negative count converts to
a `size_t` beyond `max_size()` and the constructor throws. -/
def stringFill (count : Int) (c : Char) : Except FormatError Str :=
  if count < 0 then .error .lengthError else .ok (List.replicate count.toNat c)

/-- The output `os << n` for an `int`: the decimal digits, with a minus sign when negative. -/
def decimal (n : Int) : Str :=
  if n < 0 then '-' :: Nat.toDigits 10 n.natAbs else Nat.toDigits 10 n.toNat

/-- The expression `static_cast<int>(log10(x))` for an `int` x.  For `x >= 1`
the logarithm is non-negative and its truncation is the floor of the decimal
logarithm, `Nat.log 10 x` (the `log10` of `<cmath>` is taken to be exact at the
powers of ten and monotone, as in the usual C libraries).  For `x = 0` the
logarithm is minus infinity and for `x < 0` it is NaN; converting either to
`int` is undefined. -/
def log10ToInt (x : Int) : Except FormatError Int :=
  if 0 < x then .ok (Nat.log 10 x.toNat) else .error .undefinedConversion

/-! ## The scanner interface -/

/-- The two member functions of `Scanner` that the formatter calls. -/
structure Scanner where
  translatePositionToLineColumn : Int → Int × Int
  lineAtPosition : Int → Str

/-- The type of `m_scannerFromSourceName`, a callback that may fail. -/
abbrev ScannerFromSourceNameFun := Str → Except FormatError Scanner

/-- The struct `SourceLocation`; the field `end` is written `end_`. -/
structure SourceLocation where
  start : Int
  end_ : Int
  sourceName : Option Str

/-- Modelled from the spec: the line locator over one source text (the classes
Scanner and CharStream, which implement it, are in other files of liblangutil
that this development does not have).  `lineAt(offset)` is the text of the line
containing the offset, without its newline, and `positionToLineColumn(offset)`
is the line and the column of the offset, both 0-based as in the data model of
the spec: the number of newlines before the offset, and the distance to the
start of that line.  An offset beyond the source is taken as the end of the
source. -/
def scannerOfSource (source : Str) : Scanner where
  translatePositionToLineColumn := fun pos =>
    let before := source.take (min source.length pos.toNat)
    ((before.count '\n' : Nat), ((before.reverse.takeWhile (· ≠ '\n')).length : Nat))
  lineAtPosition := fun pos =>
    let p := min source.length pos.toNat
    let column := ((source.take p).reverse.takeWhile (· ≠ '\n')).length
    (source.drop (p - column)).takeWhile (· ≠ '\n')

/-! ## `printSourceName` (lines 129-140) -/

/-- Lines 138-139, the two writes of `printSourceName`:
`string(leftpad, ' ') << frameColor << "--> " << termcolor::reset` and
`sourceName << ":" << (startLine + 1) << ":" << (startColumn + 1) << ": "`. -/
def sourceNameHeader (pad sourceName : Str) (startLine startColumn : Int) : List Tok :=
  put pad ++ frameColor ++ put "--> ".toList ++ [Tok.reset]
    ++ put sourceName ++ put ":".toList ++ put (decimal (startLine + 1))
    ++ put ":".toList ++ put (decimal (startColumn + 1)) ++ put ": ".toList

/-- The member function `printSourceName(_location, leftpad)`. -/
def printSourceName (m_scannerFromSourceName : ScannerFromSourceNameFun)
    (_location : Option SourceLocation) (leftpad : Int) : Except FormatError (List Tok) :=
  match _location with
  | none => .ok []
  | some loc =>
    match loc.sourceName with
    | none => .ok []
    | some sourceName => do
      let scanner ← m_scannerFromSourceName sourceName
      let (startLine, startColumn) := scanner.translatePositionToLineColumn loc.start
      let pad ← stringFill leftpad ' '
      .ok (sourceNameHeader pad sourceName startLine startColumn)

/-! ## `printSourceLocation` (lines 43-127) -/

/-- Line 58: `static_cast<int>(log10(startLine)) + 1`. -/
def leftpadOf (startLine : Int) : Except FormatError Int := do
  let digits ← log10ToInt startLine
  .ok (digits + 1)

/-- Lines 68-74, the span-length truncation.  Returns the new `line`,
`endColumn` and `locationLength`. -/
def spanLengthTruncation (line : Str) (startColumn endColumn : Int) :
    Except FormatError (Str × Int × Int) :=
  let locationLength := endColumn - startColumn
  if locationLength > 150 then do
    let head ← substr line 0 (startColumn + 35)
    let tail ← substrFrom line (endColumn - 35)
    .ok (head ++ " ... ".toList ++ tail, startColumn + 75, 75)
  else
    .ok (line, endColumn, locationLength)

/-- Lines 75-87, the line-length truncation.  Returns the new `line`,
`startColumn` and `endColumn`. -/
def lineLengthTruncation (line : Str) (startColumn endColumn locationLength : Int) :
    Except FormatError (Str × Int × Int) :=
  if line.length > 150 then do
    let len : Int := line.length
    let kept ← substr line (max 0 (startColumn - 35))
      (min startColumn 35 + min (locationLength + 35) (len - startColumn))
    let kept := if startColumn + locationLength + 35 < len then kept ++ " ...".toList else kept
    if startColumn > 35 then
      .ok (" ... ".toList ++ kept, 40, 40 + locationLength)
    else
      .ok (kept, startColumn, startColumn + locationLength)
  else
    .ok (line, startColumn, endColumn)

/-- Lines 102-106: `for_each` over `[line.cbegin(), line.cbegin() + startColumn)`,
writing a tab for a tab and a blank for every other character. -/
def caretPrefix (line : Str) (startColumn : Int) : Except FormatError Str :=
  if startColumn < 0 ∨ (line.length : Int) < startColumn then .error .iteratorRange
  else .ok ((line.take startColumn.toNat).map (fun ch => if ch = '\t' then '\t' else ' '))

/-- Lines 92 and 112, the empty framed line:
`string(leftpad, ' ') << frameColor << " |" << termcolor::reset << '\n'`. -/
def frameLine (pad : Str) : List Tok :=
  put pad ++ frameColor ++ put " |".toList ++ [Tok.reset] ++ put ['\n']

/-- Lines 95-98, the framed source line of the single-line case:
`frameColor << startLine << " | " << termcolor::reset << before`
`<< highlightColor << marked << termcolor::reset << after << '\n'`. -/
def sourceLine (startLine : Int) (before marked after : Str) : List Tok :=
  frameColor ++ put (decimal startLine) ++ put " | ".toList ++ [Tok.reset]
    ++ put before ++ highlightColor ++ put marked ++ [Tok.reset] ++ put after ++ put ['\n']

/-- Lines 115-117, the framed source line of the multi-line case:
`frameColor << startLine << " | " << termcolor::reset << before`
`<< highlightColor << marked << termcolor::reset << '\n'`. -/
def sourceLineToEnd (startLine : Int) (before marked : Str) : List Tok :=
  frameColor ++ put (decimal startLine) ++ put " | ".toList ++ [Tok.reset]
    ++ put before ++ highlightColor ++ put marked ++ [Tok.reset] ++ put ['\n']

/-- Lines 101-107 and 120-123, the line under the source line:
`string(leftpad, ' ') << frameColor << " | " << termcolor::reset << blanks`
`<< diagColor << marks << termcolor::reset << '\n'`. -/
def caretLine (pad blanks marks : Str) : List Tok :=
  put pad ++ frameColor ++ put " | ".toList ++ [Tok.reset]
    ++ put blanks ++ diagColor ++ put marks ++ [Tok.reset] ++ put ['\n']

/-- The string literal of line 122. -/
def multiLineNote : Str :=
  "^ (Relevant source part starts here and spans across multiple lines).".toList

/-- Lines 91-107, the branch `startLine == endLine`. -/
def singleLineCase (leftpad startLine : Int) (line : Str)
    (startColumn endColumn locationLength : Int) : Except FormatError (List Tok) := do
  -- line 1:
  let pad ← stringFill leftpad ' '
  let line1 := frameLine pad
  -- line 2:
  let before ← substr line 0 startColumn
  let marked ← substr line startColumn locationLength
  let after ← substrFrom line endColumn
  let line2 := sourceLine startLine before marked after
  -- line 3:
  let pad ← stringFill leftpad ' '
  let blanks ← caretPrefix line startColumn
  let carets ← stringFill locationLength '^'
  let line3 := caretLine pad blanks carets
  .ok (line1 ++ line2 ++ line3)

/-- Lines 111-123, the branch `startLine != endLine`. -/
def multiLineCase (leftpad startLine : Int) (line : Str) (startColumn : Int) :
    Except FormatError (List Tok) := do
  -- line 1:
  let pad ← stringFill leftpad ' '
  let line1 := frameLine pad
  -- line 2:
  let before ← substr line 0 startColumn
  let marked ← substrFrom line startColumn
  let line2 := sourceLineToEnd startLine before marked
  -- line 3:
  let pad ← stringFill leftpad ' '
  let blanks ← stringFill startColumn ' '
  let line3 := caretLine pad blanks multiLineNote
  .ok (line1 ++ line2 ++ line3)

/-- Lines 61-64: the message after the source name, and the newline. -/
def messageLine (_msg : Str) : List Tok :=
  if _msg ≠ [] then messageColor ++ put _msg ++ [Tok.reset] ++ put ['\n'] else put ['\n']

/-- The member function `printSourceLocation(_location, _msg)`. -/
def printSourceLocation (m_scannerFromSourceName : ScannerFromSourceNameFun)
    (_location : Option SourceLocation) (_msg : Str) : Except FormatError (List Tok) :=
  match _location with
  | none => .ok []
  | some loc =>
    match loc.sourceName with
    | none => .ok []
    | some sourceName => do
      let scanner ← m_scannerFromSourceName sourceName
      let (startLine, startColumn) := scanner.translatePositionToLineColumn loc.start
      let (endLine, endColumn) := scanner.translatePositionToLineColumn loc.end_
      let leftpad ← leftpadOf startLine
      let header ← printSourceName m_scannerFromSourceName _location leftpad
      let message := messageLine _msg
      let line := scanner.lineAtPosition loc.start
      let (line, endColumn, locationLength) ← spanLengthTruncation line startColumn endColumn
      let (line, startColumn, endColumn) ←
        lineLengthTruncation line startColumn endColumn locationLength
      let body ←
        if startLine = endLine then
          singleLineCase leftpad startLine line startColumn endColumn locationLength
        else
          multiLineCase leftpad startLine line startColumn
      .ok (header ++ message ++ body ++ put ['\n'])

/-! ## `printExceptionInformation` (lines 142-165) -/

/-- Modelled from the spec: the payload of `errinfo_secondarySourceLocation`,
whose declaration (`SecondarySourceLocation` in Exceptions.h) this development
does not have: the ordered sequence of (message, location) pairs. -/
structure SecondarySourceLocation where
  infos : List (Str × SourceLocation)

/-- Modelled from the spec: the diagnostic record, as far as lines 147-152
read it through `boost::get_error_info` (the class `dev::Exception` and the
three `errinfo_` tags are declared in headers this development does not have):
an optional primary location, optional secondary locations and an optional
comment.  An absent field is a null pointer of `get_error_info`. -/
structure Exception where
  errinfo_sourceLocation : Option SourceLocation
  errinfo_secondarySourceLocation : Option SecondarySourceLocation
  errinfo_comment : Option Str

/-- Modelled from the spec: the default argument `_msg` of `printSourceLocation`,
which line 160 relies on and which is given in the header, not in this file;
the spec has the primary location formatted with no message. -/
def defaultMsg : Str := []

/-- Lines 151-155, the exception header line:
`m_stream << errorColor << _name`, then
`m_stream << messageColor << ": " << *description << endl` when there is a
comment, else `m_stream << termcolor::reset << '\n'`. -/
def exceptionHeader (_exception : Exception) (_name : Str) : List Tok :=
  errorColor ++ put _name ++
    (match _exception.errinfo_comment with
      | some description => messageColor ++ put ": ".toList ++ put description ++ put ['\n']
      | none => [Tok.reset] ++ put ['\n'])

/-- Lines 157-158: a newline when `!location || !location->sourceName`. -/
def unlocatedNewline (location : Option SourceLocation) : List Tok :=
  match location with
  | none => put ['\n']
  | some loc =>
    match loc.sourceName with
    | none => put ['\n']
    | some _ => []

/-- Lines 163-164, the loop `for (auto info: secondarylocation->infos)`
`printSourceLocation(&info.second, info.first)`. -/
def printSecondaryLocations (m_scannerFromSourceName : ScannerFromSourceNameFun) :
    List (Str × SourceLocation) → Except FormatError (List Tok)
  | [] => .ok []
  | info :: rest => do
    let first ← printSourceLocation m_scannerFromSourceName (some info.2) info.1
    let others ← printSecondaryLocations m_scannerFromSourceName rest
    .ok (first ++ others)

/-- The member function `printExceptionInformation(_exception, _name)`. -/
def printExceptionInformation (m_scannerFromSourceName : ScannerFromSourceNameFun)
    (_exception : Exception) (_name : Str) : Except FormatError (List Tok) := do
  let location := _exception.errinfo_sourceLocation
  let secondarylocation := _exception.errinfo_secondarySourceLocation
  -- exception header line
  let header := exceptionHeader _exception _name
  let newline := unlocatedNewline location
  let primary ← printSourceLocation m_scannerFromSourceName location defaultMsg
  let secondary ←
    match secondarylocation with
    | none => .ok []
    | some s =>
      if !s.infos.isEmpty then printSecondaryLocations m_scannerFromSourceName s.infos
      else .ok []
  .ok (header ++ newline ++ primary ++ secondary)

/-- The secondary entries of a record in their stored order: the `infos` of
`errinfo_secondarySourceLocation`, none when that field is absent. -/
def secondaryEntries (_exception : Exception) : List (Str × SourceLocation) :=
  match _exception.errinfo_secondarySourceLocation with
  | none => []
  | some s => s.infos

/-! ## Reading an output as styled text -/

/-- Whether a style is active after an output, starting from `active`: a
termcolor colour or `bold` switches a style on, `reset` switches every style
off, a character leaves the state as it is. -/
def styleActive : Bool → List Tok → Bool
  | active, [] => active
  | _, Tok.reset :: rest => styleActive false rest
  | active, Tok.ch _ :: rest => styleActive active rest
  | _, _ :: rest => styleActive true rest

/-! ## Auxiliary facts -/

@[simp] theorem ok_bind {ε α β : Type} (a : α) (f : α → Except ε β) :
    (Except.ok a >>= f) = f a := rfl

@[simp] theorem error_bind {ε α β : Type} (e : ε) (f : α → Except ε β) :
    (Except.error e >>= f) = Except.error e := rfl

@[simp] theorem plain_append (xs ys : List Tok) : plain (xs ++ ys) = plain xs ++ plain ys := by
  induction xs with
  | nil => rfl
  | cons t xs ih => cases t <;> simp [plain, ih]

@[simp] theorem plain_put (s : Str) : plain (put s) = s := by
  induction s with
  | nil => rfl
  | cons c s ih => simpa [put, plain] using ih

@[simp] theorem plain_frameColor : plain frameColor = [] := rfl

@[simp] theorem plain_messageColor : plain messageColor = [] := rfl

@[simp] theorem plain_diagColor : plain diagColor = [] := rfl

@[simp] theorem plain_highlightColor : plain highlightColor = [] := rfl

@[simp] theorem plain_reset : plain [Tok.reset] = [] := rfl

theorem plain_sourceNameHeader (pad name : Str) (startLine startColumn : Int) :
    plain (sourceNameHeader pad name startLine startColumn)
      = pad ++ "--> ".toList ++ name ++ ":".toList ++ decimal (startLine + 1)
          ++ ":".toList ++ decimal (startColumn + 1) ++ ": ".toList := by
  simp [sourceNameHeader, plain]

theorem plain_messageLine (msg : Str) : plain (messageLine msg) = msg ++ ['\n'] := by
  by_cases h : msg = [] <;> simp [messageLine, h, plain]

/-- The text of the line under the source line: the padding, the margin
` | `, the prefix and the carets or the note. -/
theorem plain_caretLine (pad blanks marks : Str) :
    plain (caretLine pad blanks marks) = pad ++ " | ".toList ++ blanks ++ marks ++ ['\n'] := by
  simp [caretLine, plain]

/-- The text of the source line: the line number as line 95 prints it, the
margin ` | ` and the three parts of the line. -/
theorem plain_sourceLine (startLine : Int) (before marked after : Str) :
    plain (sourceLine startLine before marked after)
      = decimal startLine ++ " | ".toList ++ before ++ marked ++ after ++ ['\n'] := by
  simp [sourceLine, plain]

/-- The digit loop of `Nat.toDigits` writes `Nat.log 10 n + 1` digits. -/
theorem toDigitsCore_length (fuel : Nat) : ∀ (n : Nat) (ds : List Char), n < fuel →
    (Nat.toDigitsCore 10 fuel n ds).length = ds.length + Nat.log 10 n + 1 := by
  induction fuel with
  | zero => intro n ds h; omega
  | succ fuel ih =>
    intro n ds h
    simp only [Nat.toDigitsCore]
    split
    · have : n < 10 := by omega
      simp [Nat.log_of_lt this]
    · have h10 : 10 ≤ n := by omega
      have hlt : n / 10 < fuel := by omega
      rw [ih (n / 10) _ hlt]
      have := Nat.log_of_one_lt_of_le (b := 10) (n := n) (by norm_num) h10
      simp only [List.length_cons]
      omega

theorem toDigits_length (n : Nat) : (Nat.toDigits 10 n).length = Nat.log 10 n + 1 := by
  simp [Nat.toDigits, toDigitsCore_length (n + 1) n [] (Nat.lt_succ_self n)]

theorem decimal_length_of_pos (n : Int) (h : 1 ≤ n) :
    (decimal n).length = Nat.log 10 n.toNat + 1 := by
  have : ¬ n < 0 := by omega
  simp [decimal, this, toDigits_length]

/-! ## The library calls with arguments in range -/

theorem substr_inRange (s : Str) (pos n : Int) (h0 : 0 ≤ pos) (hp : pos ≤ s.length)
    (hn : 0 ≤ n) : substr s pos n = .ok ((s.drop pos.toNat).take n.toNat) := by
  have h1 : ¬ (pos < 0 ∨ (s.length : Int) < pos) := by omega
  have h2 : ¬ (n < 0) := by omega
  simp only [substr, h1, h2, if_false]

theorem substrFrom_inRange (s : Str) (pos : Int) (h0 : 0 ≤ pos) (hp : pos ≤ s.length) :
    substrFrom s pos = .ok (s.drop pos.toNat) := by
  have h1 : ¬ (pos < 0 ∨ (s.length : Int) < pos) := by omega
  simp only [substrFrom, h1, if_false]

theorem stringFill_nonneg (count : Int) (c : Char) (h : 0 ≤ count) :
    stringFill count c = .ok (List.replicate count.toNat c) := by
  have h1 : ¬ (count < 0) := by omega
  simp only [stringFill, h1, if_false]

theorem caretPrefix_inRange (line : Str) (startColumn : Int) (h0 : 0 ≤ startColumn)
    (hs : startColumn ≤ line.length) :
    caretPrefix line startColumn
      = .ok ((line.take startColumn.toNat).map (fun ch => if ch = '\t' then '\t' else ' ')) := by
  have h1 : ¬ (startColumn < 0 ∨ (line.length : Int) < startColumn) := by omega
  simp only [caretPrefix, h1, if_false]

/-- Line 58 on a start line that is at least 1. -/
theorem leftpadOf_pos (startLine : Int) (h : 1 ≤ startLine) :
    leftpadOf startLine = .ok ((Nat.log 10 startLine.toNat + 1 : Nat) : Int) := by
  have : 0 < startLine := by omega
  simp [leftpadOf, log10ToInt, this]

/-! ## The span-length truncation (lines 68-74) -/

/-- Lines 68-74 on a span of at most 150 columns: nothing changes. -/
theorem spanLengthTruncation_short (line : Str) (startColumn endColumn : Int)
    (h : endColumn - startColumn ≤ 150) :
    spanLengthTruncation line startColumn endColumn
      = .ok (line, endColumn, endColumn - startColumn) := by
  have h' : ¬ (endColumn - startColumn > 150) := by omega
  simp [spanLengthTruncation, h']

/-- Lines 68-74 on a span of more than 150 columns that ends inside the line. -/
theorem spanLengthTruncation_long (line : Str) (s : Nat) (endColumn : Int)
    (hspan : endColumn - s > 150) (he : endColumn ≤ line.length) :
    spanLengthTruncation line s endColumn
      = .ok (line.take (s + 35) ++ " ... ".toList ++ line.drop (endColumn - 35).toNat,
          (s : Int) + 75, 75) := by
  have e1 : ((s : Int) + 35).toNat = s + 35 := by omega
  simp only [spanLengthTruncation, hspan, if_true,
    substr_inRange line 0 ((s : Int) + 35) (by omega) (by omega) (by omega),
    substrFrom_inRange line (endColumn - 35) (by omega) (by omega), ok_bind, e1,
    Int.toNat_zero, List.drop_zero]

/-- The 75 characters at `s` of the line that leaves lines 68-74. -/
theorem spanLengthTruncation_marked (line : Str) (s e : Nat) (hspan : s + 150 < e)
    (he : e ≤ line.length) :
    ((line.take (s + 35) ++ " ... ".toList ++ line.drop (e - 35)).drop s).take 75
      = (line.drop s).take 35 ++ " ... ".toList ++ (line.drop (e - 35)).take 35 := by
  have hA : (line.take (s + 35)).length = s + 35 := by
    simp only [List.length_take]
    omega
  have hB : ((line.drop s).take 35).length = 35 := by
    simp only [List.length_take, List.length_drop]
    omega
  rw [List.append_assoc, List.drop_append_of_le_length (by omega), List.drop_take]
  have e1 : s + 35 - s = 35 := by omega
  rw [e1, List.take_append_eq_append_take, hB, List.take_append_eq_append_take]
  have e2 : List.take 75 (List.take 35 (List.drop s line)) = List.take 35 (List.drop s line) := by
    rw [List.take_take]
    rfl
  have e3 : List.take (75 - 35) " ... ".toList = " ... ".toList := rfl
  have e4 : 75 - 35 - " ... ".toList.length = 35 := rfl
  rw [e2, e3, e4, List.append_assoc]

/-! ## The line-length truncation (lines 75-87) -/

/-- Lines 75-87 on a line of at most 150 characters: nothing changes. -/
theorem lineLengthTruncation_short (line : Str) (startColumn endColumn locationLength : Int)
    (h : line.length ≤ 150) :
    lineLengthTruncation line startColumn endColumn locationLength
      = .ok (line, startColumn, endColumn) := by
  have h' : ¬ (line.length > 150) := by omega
  simp [lineLengthTruncation, h']

/-- Lines 75-87 on a line of more than 150 characters, for a start column and
a highlighted length that are non-negative and lie inside the line: the kept
window and the two markers. -/
theorem lineLengthTruncation_long (line : Str) (s l : Nat) (endColumn : Int)
    (hlen : 150 < line.length) (h : s + l ≤ line.length) :
    lineLengthTruncation line s endColumn l
      = .ok ((if 35 < s then " ... ".toList else [])
              ++ ((line.drop (s - 35)).take (min s 35 + min (l + 35) (line.length - s))
                ++ (if s + l + 35 < line.length then " ...".toList else [])),
            ((if 35 < s then 40 else s : Nat) : Int),
            ((if 35 < s then 40 else s : Nat) : Int) + l) := by
  have hgt : line.length > 150 := hlen
  have hpos : (max 0 ((s : Int) - 35)).toNat = s - 35 := by omega
  have hcnt : (min (s : Int) 35 + min ((l : Int) + 35) ((line.length : Int) - s)).toNat
      = min s 35 + min (l + 35) (line.length - s) := by omega
  have hsub : substr line (max 0 ((s : Int) - 35))
      (min (s : Int) 35 + min ((l : Int) + 35) ((line.length : Int) - s))
      = .ok ((line.drop (s - 35)).take (min s 35 + min (l + 35) (line.length - s))) := by
    rw [substr_inRange line _ _ (by omega) (by omega) (by omega), hpos, hcnt]
  simp only [lineLengthTruncation, hgt, if_true, hsub, ok_bind]
  by_cases h1 : 35 < s <;> by_cases h2 : s + l + 35 < line.length
  · have h1' : (s : Int) > 35 := by omega
    have h2' : (s : Int) + l + 35 < line.length := by omega
    simp [h1, h2, h1', h2']
  · have h1' : (s : Int) > 35 := by omega
    have h2' : ¬ ((s : Int) + l + 35 < line.length) := by omega
    simp [h1, h2, h1', h2']
  · have h1' : ¬ ((s : Int) > 35) := by omega
    have h2' : (s : Int) + l + 35 < line.length := by omega
    simp [h1, h2, h1', h2']
  · have h1' : ¬ ((s : Int) > 35) := by omega
    have h2' : ¬ ((s : Int) + l + 35 < line.length) := by omega
    simp [h1, h2, h1', h2']

/-- A window `[a, a + p + m)` of a list between two markers: the `l <= m`
items after the first `p` items of the window are those of the list at
`a + p`. -/
theorem window_marked {α : Type} (L lead trail : List α) (a p m l : Nat) (hl : l ≤ m)
    (hfit : a + p + m ≤ L.length) :
    ((lead ++ ((L.drop a).take (p + m) ++ trail)).drop (lead.length + p)).take l
      = (L.drop (a + p)).take l := by
  have hK : ((L.drop a).take (p + m)).length = p + m := by
    simp only [List.length_take, List.length_drop]
    omega
  rw [List.drop_append, List.drop_append_of_le_length (by omega), List.drop_take,
    List.drop_drop, List.take_append_of_le_length, List.take_take]
  · congr 1
    omega
  · simp only [List.length_take, List.length_drop]
    omega

/-- Lines 75-87 never move the highlighted text: for non-negative columns
inside the line the result is in range and its highlighted region is that of
the line that entered. -/
theorem lineLengthTruncation_marked (line : Str) (s l : Nat) (h : s + l ≤ line.length) :
    ∃ (line2 : Str) (s2 : Nat),
      lineLengthTruncation line s ((s : Int) + l) l = .ok (line2, (s2 : Int), (s2 : Int) + l)
      ∧ s2 + l ≤ line2.length
      ∧ (line2.drop s2).take l = (line.drop s).take l := by
  by_cases hlen : 150 < line.length
  · rw [lineLengthTruncation_long line s l _ hlen h]
    refine ⟨_, _, rfl, ?_, ?_⟩
    · by_cases h1 : 35 < s <;> by_cases h2 : s + l + 35 < line.length <;>
        simp only [h1, h2, if_true, if_false, List.length_append, List.length_take,
          List.length_drop, List.length_nil, show " ... ".toList.length = 5 from rfl,
          show " ...".toList.length = 4 from rfl] <;>
        omega
    · by_cases h1 : 35 < s
      · have e := window_marked line " ... ".toList
          (if s + l + 35 < line.length then " ...".toList else []) (s - 35) 35
          (min (l + 35) (line.length - s)) l (by omega) (by omega)
        have e1 : min s 35 = 35 := by omega
        have e2 : s - 35 + 35 = s := by omega
        have e3 : " ... ".toList.length + 35 = 40 := rfl
        simp only [h1, if_true, e1]
        rw [e2, e3] at e
        exact e
      · have e := window_marked line []
          (if s + l + 35 < line.length then " ...".toList else []) (s - 35) s
          (min (l + 35) (line.length - s)) l (by omega) (by omega)
        have e1 : min s 35 = s := by omega
        have e2 : s - 35 + s = s := by omega
        simp only [h1, if_false, e1]
        rw [e2] at e
        simpa using e
  · rw [lineLengthTruncation_short line _ _ _ (by omega)]
    exact ⟨line, s, rfl, h, rfl⟩

/-- Lines 75-87 with an interior window whose length is at least -70, so that
the count of line 78 is not negative: the line that leaves is the marker
` ... `, the characters from `startColumn - 35` up to
`startColumn + locationLength + 35`, and the marker ` ...`. -/
theorem lineLengthTruncation_interior (line : Str) (startColumn endColumn locationLength : Int)
    (hlen : line.length > 150) (hll : -70 ≤ locationLength) (hs : startColumn > 35)
    (hint : startColumn + locationLength + 35 < line.length) :
    lineLengthTruncation line startColumn endColumn locationLength
      = .ok (" ... ".toList
              ++ (line.take (startColumn + locationLength + 35).toNat).drop
                  (startColumn - 35).toNat
              ++ " ...".toList,
            40, 40 + locationLength) := by
  have hpos : (max 0 (startColumn - 35)).toNat = (startColumn - 35).toNat := by omega
  have hcnt : (min startColumn 35 + min (locationLength + 35) ((line.length : Int) - startColumn)).toNat
      = (startColumn + locationLength + 35).toNat - (startColumn - 35).toNat := by omega
  have hsub : substr line (max 0 (startColumn - 35))
      (min startColumn 35 + min (locationLength + 35) ((line.length : Int) - startColumn))
      = .ok ((line.take (startColumn + locationLength + 35).toNat).drop
          (startColumn - 35).toNat) := by
    rw [substr_inRange line _ _ (by omega) (by omega) (by omega), hpos, hcnt, List.drop_take]
  simp only [lineLengthTruncation, hlen, if_true, hsub, ok_bind, hint, hs, List.append_assoc]

/-! ## The two cases (lines 89-124) -/

/-- Lines 91-107 with all indices inside the line. -/
theorem singleLineCase_inRange (w : Nat) (startLine : Int) (line : Str)
    (startColumn endColumn locationLength : Int)
    (h0 : 0 ≤ startColumn) (hs : startColumn ≤ line.length) (hl : 0 ≤ locationLength)
    (he0 : 0 ≤ endColumn) (he : endColumn ≤ line.length) :
    singleLineCase w startLine line startColumn endColumn locationLength
      = .ok (frameLine (List.replicate w ' ')
          ++ sourceLine startLine (line.take startColumn.toNat)
              ((line.drop startColumn.toNat).take locationLength.toNat)
              (line.drop endColumn.toNat)
          ++ caretLine (List.replicate w ' ')
              ((line.take startColumn.toNat).map (fun ch => if ch = '\t' then '\t' else ' '))
              (List.replicate locationLength.toNat '^')) := by
  simp only [singleLineCase, stringFill_nonneg (w : Int) ' ' (by omega),
    substr_inRange line 0 startColumn (by omega) (by omega) h0,
    substr_inRange line startColumn locationLength h0 hs hl,
    substrFrom_inRange line endColumn he0 he, caretPrefix_inRange line startColumn h0 hs,
    stringFill_nonneg locationLength '^' hl, ok_bind, Int.toNat_ofNat, Int.toNat_zero,
    List.drop_zero]

/-- The output of `printSourceName` on a printable location and a non-negative padding. -/
theorem printSourceName_located (fn : ScannerFromSourceNameFun) (loc : SourceLocation)
    (name : Str) (scanner : Scanner) (startLine startColumn : Int) (leftpad : Nat)
    (hname : loc.sourceName = some name) (hfn : fn name = .ok scanner)
    (hstart : scanner.translatePositionToLineColumn loc.start = (startLine, startColumn)) :
    printSourceName fn (some loc) leftpad
      = .ok (sourceNameHeader (List.replicate leftpad ' ') name startLine startColumn) := by
  have hpad : ¬ ((leftpad : Int) < 0) := by omega
  simp [printSourceName, hname, hfn, hstart, stringFill, hpad]

/-- On a start line that is 0 or negative the call fails at line 58. -/
theorem printSourceLocation_nonpositive_line (fn : ScannerFromSourceNameFun)
    (loc : SourceLocation) (name : Str) (scanner : Scanner) (msg : Str)
    (startLine startColumn : Int)
    (hname : loc.sourceName = some name) (hfn : fn name = .ok scanner)
    (hstart : scanner.translatePositionToLineColumn loc.start = (startLine, startColumn))
    (hline : startLine ≤ 0) :
    printSourceLocation fn (some loc) msg = .error .undefinedConversion := by
  have h : ¬ (0 < startLine) := by omega
  simp only [printSourceLocation, hname, hfn, hstart, ok_bind, leftpadOf, log10ToInt, h,
    if_false, error_bind]

/-- The call `printSourceLocation` past line 64: the header is written and the rest is
the two truncations followed by one of the two cases. -/
theorem printSourceLocation_located (fn : ScannerFromSourceNameFun) (loc : SourceLocation)
    (name : Str) (scanner : Scanner) (msg : Str) (startLine startColumn endLine endColumn : Int)
    (hname : loc.sourceName = some name) (hfn : fn name = .ok scanner)
    (hstart : scanner.translatePositionToLineColumn loc.start = (startLine, startColumn))
    (hend : scanner.translatePositionToLineColumn loc.end_ = (endLine, endColumn))
    (hline : 1 ≤ startLine) :
    printSourceLocation fn (some loc) msg
      = (spanLengthTruncation (scanner.lineAtPosition loc.start) startColumn endColumn
          >>= fun r1 => lineLengthTruncation r1.1 startColumn r1.2.1 r1.2.2
          >>= fun r2 =>
            (if startLine = endLine then
              singleLineCase (Nat.log 10 startLine.toNat + 1 : Nat) startLine
                r2.1 r2.2.1 r2.2.2 r1.2.2
            else
              multiLineCase (Nat.log 10 startLine.toNat + 1 : Nat) startLine r2.1 r2.2.1)
          >>= fun body =>
            .ok (sourceNameHeader (List.replicate (Nat.log 10 startLine.toNat + 1) ' ')
                  name startLine startColumn
                ++ messageLine msg ++ body ++ put ['\n'])) := by
  simp only [printSourceLocation, hname, hfn, hstart, hend, ok_bind, leftpadOf_pos startLine hline,
    printSourceName_located fn loc name scanner startLine startColumn _ hname hfn hstart]
  by_cases hse : startLine = endLine
  · simp only [hse, if_true]
  · simp only [hse, if_false]

/-- On a start line of at least 1, whatever `printSourceLocation` writes begins
with the output of `printSourceName` and the message line. -/
theorem printSourceLocation_header (fn : ScannerFromSourceNameFun) (loc : SourceLocation)
    (name : Str) (scanner : Scanner) (msg : Str) (startLine startColumn endLine endColumn : Int)
    (hname : loc.sourceName = some name) (hfn : fn name = .ok scanner)
    (hstart : scanner.translatePositionToLineColumn loc.start = (startLine, startColumn))
    (hend : scanner.translatePositionToLineColumn loc.end_ = (endLine, endColumn))
    (hline : 1 ≤ startLine) (out : List Tok)
    (hout : printSourceLocation fn (some loc) msg = .ok out) :
    ∃ body, out = sourceNameHeader (List.replicate (Nat.log 10 startLine.toNat + 1) ' ')
        name startLine startColumn ++ messageLine msg ++ body ++ put ['\n'] := by
  rw [printSourceLocation_located fn loc name scanner msg startLine startColumn endLine endColumn
    hname hfn hstart hend hline] at hout
  cases h1 : spanLengthTruncation (scanner.lineAtPosition loc.start) startColumn endColumn with
  | error e =>
    rw [h1] at hout
    cases hout
  | ok r1 =>
    rw [h1] at hout
    simp only [ok_bind] at hout
    cases h2 : lineLengthTruncation r1.1 startColumn r1.2.1 r1.2.2 with
    | error e =>
      rw [h2] at hout
      cases hout
    | ok r2 =>
      rw [h2] at hout
      simp only [ok_bind] at hout
      cases h3 : (if startLine = endLine then
              singleLineCase (Nat.log 10 startLine.toNat + 1 : Nat) startLine
                r2.1 r2.2.1 r2.2.2 r1.2.2
            else
              multiLineCase (Nat.log 10 startLine.toNat + 1 : Nat) startLine r2.1 r2.2.1) with
      | error e =>
        rw [h3] at hout
        cases hout
      | ok body =>
        rw [h3] at hout
        simp only [ok_bind] at hout
        exact ⟨body, (Except.ok.inj hout).symm⟩

/-- The single-line case without truncation, on a start line of at least 1:
the complete output. -/
theorem printSourceLocation_singleLine_short (fn : ScannerFromSourceNameFun)
    (loc : SourceLocation) (name : Str) (scanner : Scanner) (msg : Str)
    (startLine startColumn endColumn : Int)
    (hname : loc.sourceName = some name) (hfn : fn name = .ok scanner)
    (hstart : scanner.translatePositionToLineColumn loc.start = (startLine, startColumn))
    (hend : scanner.translatePositionToLineColumn loc.end_ = (startLine, endColumn))
    (hline : 1 ≤ startLine) (h0 : 0 ≤ startColumn) (hse : startColumn ≤ endColumn)
    (he : endColumn ≤ (scanner.lineAtPosition loc.start).length)
    (hspan : endColumn - startColumn ≤ 150)
    (hlen : (scanner.lineAtPosition loc.start).length ≤ 150) :
    printSourceLocation fn (some loc) msg
      = .ok (sourceNameHeader (List.replicate (Nat.log 10 startLine.toNat + 1) ' ')
              name startLine startColumn
          ++ messageLine msg
          ++ (frameLine (List.replicate (Nat.log 10 startLine.toNat + 1) ' ')
            ++ sourceLine startLine ((scanner.lineAtPosition loc.start).take startColumn.toNat)
                (((scanner.lineAtPosition loc.start).drop startColumn.toNat).take
                  (endColumn - startColumn).toNat)
                ((scanner.lineAtPosition loc.start).drop endColumn.toNat)
            ++ caretLine (List.replicate (Nat.log 10 startLine.toNat + 1) ' ')
                (((scanner.lineAtPosition loc.start).take startColumn.toNat).map
                  (fun ch => if ch = '\t' then '\t' else ' '))
                (List.replicate (endColumn - startColumn).toNat '^'))
          ++ put ['\n']) := by
  rw [printSourceLocation_located fn loc name scanner msg startLine startColumn startLine endColumn
    hname hfn hstart hend hline]
  simp only [spanLengthTruncation_short _ _ _ hspan, ok_bind,
    lineLengthTruncation_short _ _ _ _ hlen, if_true,
    singleLineCase_inRange _ startLine _ startColumn endColumn (endColumn - startColumn)
      h0 (by omega) (by omega) (by omega) he]

/-- A single-line span of more than 150 columns on a start line of at least 1:
the complete output, with the 75 highlighted characters and the 75 carets. -/
theorem printSourceLocation_singleLine_long (fn : ScannerFromSourceNameFun)
    (loc : SourceLocation) (name : Str) (scanner : Scanner) (msg : Str)
    (startLine startColumn endColumn : Int)
    (hname : loc.sourceName = some name) (hfn : fn name = .ok scanner)
    (hstart : scanner.translatePositionToLineColumn loc.start = (startLine, startColumn))
    (hend : scanner.translatePositionToLineColumn loc.end_ = (startLine, endColumn))
    (hline : 1 ≤ startLine) (h0 : 0 ≤ startColumn)
    (he : endColumn ≤ (scanner.lineAtPosition loc.start).length)
    (hspan : endColumn - startColumn > 150) :
    ∃ before after : Str,
      printSourceLocation fn (some loc) msg
        = .ok (sourceNameHeader (List.replicate (Nat.log 10 startLine.toNat + 1) ' ')
                name startLine startColumn
            ++ messageLine msg
            ++ (frameLine (List.replicate (Nat.log 10 startLine.toNat + 1) ' ')
              ++ sourceLine startLine before
                  (((scanner.lineAtPosition loc.start).drop startColumn.toNat).take 35
                    ++ " ... ".toList
                    ++ ((scanner.lineAtPosition loc.start).drop (endColumn - 35).toNat).take 35)
                  after
              ++ caretLine (List.replicate (Nat.log 10 startLine.toNat + 1) ' ')
                  (before.map (fun ch => if ch = '\t' then '\t' else ' '))
                  (List.replicate 75 '^'))
            ++ put ['\n']) := by
  obtain ⟨s, rfl⟩ := Int.eq_ofNat_of_zero_le h0
  obtain ⟨e, rfl⟩ := Int.eq_ofNat_of_zero_le (show 0 ≤ endColumn by omega)
  have hse : s + 150 < e := by omega
  have hel : e ≤ (scanner.lineAtPosition loc.start).length := by omega
  have e35 : ((e : Int) - 35).toNat = e - 35 := by omega
  rw [printSourceLocation_located fn loc name scanner msg startLine s startLine e
    hname hfn hstart hend hline, spanLengthTruncation_long _ s e hspan he, e35]
  simp only [ok_bind, if_true]
  have hfit : s + 75 ≤ ((scanner.lineAtPosition loc.start).take (s + 35) ++ " ... ".toList
      ++ (scanner.lineAtPosition loc.start).drop (e - 35)).length := by
    simp only [List.length_append, List.length_take, List.length_drop,
      show " ... ".toList.length = 5 from rfl]
    omega
  obtain ⟨line2, s2, h2, hfit2, hmark⟩ := lineLengthTruncation_marked _ s 75 hfit
  simp only [Nat.cast_ofNat] at h2
  rw [h2]
  simp only [ok_bind]
  rw [singleLineCase_inRange _ startLine line2 s2 ((s2 : Int) + 75) 75 (by omega) (by omega)
    (by omega) (by omega) (by omega)]
  have t1 : ((s2 : Int) + 75).toNat = s2 + 75 := by omega
  have t2 : (75 : Int).toNat = 75 := rfl
  rw [spanLengthTruncation_marked _ s e hse hel] at hmark
  simp only [ok_bind, Int.toNat_ofNat, t1, t2, hmark]
  exact ⟨line2.take s2, line2.drop (s2 + 75), rfl⟩

/-! ## C1: the unprintable location -/

/-- C1: for a location that is absent or has no source name, and for every
message, `printSourceLocation` writes nothing.  The scanner lookup is
arbitrary here, also one that fails on every name: it is never consulted. -/
theorem unprintable_location_writes_nothing (m_scannerFromSourceName : ScannerFromSourceNameFun)
    (_location : Option SourceLocation) (_msg : Str)
    (h : _location = none ∨ ∃ l, _location = some l ∧ l.sourceName = none) :
    printSourceLocation m_scannerFromSourceName _location _msg = .ok [] := by
  rcases h with rfl | ⟨l, rfl, hl⟩
  · rfl
  · simp [printSourceLocation, hl]

/-- C1 at a location without a source name, with a scanner lookup that fails
on every name. -/
theorem unprintable_location_writes_nothing_witness :
    ((some ⟨3, 5, none⟩ : Option SourceLocation) = none
        ∨ ∃ l, (some ⟨3, 5, none⟩ : Option SourceLocation) = some l ∧ l.sourceName = none)
      ∧ printSourceLocation (fun _ => .error .unknownSource) (some ⟨3, 5, none⟩)
          "note".toList = .ok [] :=
  ⟨Or.inr ⟨_, rfl, rfl⟩,
    unprintable_location_writes_nothing (fun _ => .error .unknownSource) (some ⟨3, 5, none⟩)
      "note".toList (Or.inr ⟨_, rfl, rfl⟩)⟩

/-! ## C2: the end-to-end example -/

/-- C2: on the source `foo = bar;` named test.sol the scanner reports line 0
for the span 6-9, line 58 takes `log10(0)`, and the call does not complete:
nothing of the header, the source line or the caret line is rendered. -/
theorem end_to_end_example_fails :
    (scannerOfSource "foo = bar;\n".toList).translatePositionToLineColumn 6 = (0, 6)
      ∧ (scannerOfSource "foo = bar;\n".toList).translatePositionToLineColumn 9 = (0, 9)
      ∧ (scannerOfSource "foo = bar;\n".toList).lineAtPosition 6 = "foo = bar;".toList
      ∧ printSourceLocation (fun _ => .ok (scannerOfSource "foo = bar;\n".toList))
          (some ⟨6, 9, some "test.sol".toList⟩) "undeclared identifier".toList
        = .error .undefinedConversion := by
  decide

/-! ## C3: the header -/

/-- C3: `printSourceName` writes the padding, `--> `, the name and the 1-based
line and column, here ` --> a.sol:1:5: `; but for this location, on the first
line of its source, `printSourceLocation` does not write that fragment, the
message and a newline as its first line: it fails at line 58. -/
theorem header_on_first_line_fails :
    (scannerOfSource "x = 1;\n".toList).translatePositionToLineColumn 4 = (0, 4)
      ∧ printSourceName (fun _ => .ok (scannerOfSource "x = 1;\n".toList))
          (some ⟨4, 5, some "a.sol".toList⟩) 1
        = .ok (sourceNameHeader [' '] "a.sol".toList 0 4)
      ∧ plain (sourceNameHeader [' '] "a.sol".toList 0 4) = " --> a.sol:1:5: ".toList
      ∧ printSourceLocation (fun _ => .ok (scannerOfSource "x = 1;\n".toList))
          (some ⟨4, 5, some "a.sol".toList⟩) "m".toList
        = .error .undefinedConversion := by
  decide

/-! ## C4: the caret line of a single-line span -/

/-- C4: a single-line span on the first line of its source, with the columns
7 and 10 inside a line of 11 characters: no caret line is written, the call
fails at line 58. -/
theorem caret_line_on_first_line_fails :
    (scannerOfSource "\tfoo = bar;\n".toList).translatePositionToLineColumn 7 = (0, 7)
      ∧ (scannerOfSource "\tfoo = bar;\n".toList).translatePositionToLineColumn 10 = (0, 10)
      ∧ ((scannerOfSource "\tfoo = bar;\n".toList).lineAtPosition 7).length = 11
      ∧ printSourceLocation (fun _ => .ok (scannerOfSource "\tfoo = bar;\n".toList))
          (some ⟨7, 10, some "test.sol".toList⟩) []
        = .error .undefinedConversion := by
  decide

/-! ## C5: a span of more than 150 columns -/

set_option maxRecDepth 1000000 in
/-- C5, as stated, fails: a multi-line span from line 1, column 0 to line 2,
column 160 has `endColumn - startColumn = 160 > 150`; the call completes, the
highlighted region is the whole cut line of 115 characters, not 75, and the
line under it has one caret. -/
theorem long_span_multiLine_counterexample :
    (scannerOfSource
        ('\n' :: List.replicate 200 'x' ++ '\n' :: List.replicate 170 'y')).translatePositionToLineColumn
          1
        = (1, 0)
      ∧ (scannerOfSource
        ('\n' :: List.replicate 200 'x' ++ '\n' :: List.replicate 170 'y')).translatePositionToLineColumn
          362
        = (2, 160)
      ∧ printSourceLocation
          (fun _ => .ok (scannerOfSource
            ('\n' :: List.replicate 200 'x' ++ '\n' :: List.replicate 170 'y')))
          (some ⟨1, 362, some "a.sol".toList⟩) []
        = .ok (sourceNameHeader [' '] "a.sol".toList 1 0 ++ put ['\n']
            ++ (frameLine [' ']
              ++ sourceLineToEnd 1 []
                  (List.replicate 35 'x' ++ " ... ".toList ++ List.replicate 75 'x')
              ++ caretLine [' '] [] multiLineNote)
            ++ put ['\n'])
      ∧ (List.replicate 35 'x' ++ " ... ".toList ++ List.replicate 75 'x').length = 115
      ∧ multiLineNote.count '^' = 1 := by
  refine ⟨by decide, by decide, ?_, by decide, by decide⟩
  rw [printSourceLocation_located _ ⟨1, 362, some "a.sol".toList⟩ "a.sol".toList
    (scannerOfSource ('\n' :: List.replicate 200 'x' ++ '\n' :: List.replicate 170 'y')) []
    1 0 2 160 rfl rfl (by decide) (by decide) (by decide)]
  have hlog : Nat.log 10 (1 : Int).toNat = 0 := by simp
  rw [hlog]
  decide

/-- C5, amended: for every single-line span with `endColumn - startColumn > 150`
whose columns lie in the line (`0 <= startColumn`, `endColumn <= line length`)
and whose start line is at least 1, the highlighted region of the source line
is the 35 characters of the original line from `startColumn`, the marker
` ... `, and the 35 characters of the original line that end before
`endColumn`; it has 75 characters and the caret run under it has 75 carets. -/
theorem long_span_highlight (m_scannerFromSourceName : ScannerFromSourceNameFun)
    (loc : SourceLocation) (sourceName : Str) (scanner : Scanner) (_msg : Str)
    (startLine startColumn endColumn : Int)
    (hname : loc.sourceName = some sourceName)
    (hfn : m_scannerFromSourceName sourceName = .ok scanner)
    (hstart : scanner.translatePositionToLineColumn loc.start = (startLine, startColumn))
    (hend : scanner.translatePositionToLineColumn loc.end_ = (startLine, endColumn))
    (hline : 1 ≤ startLine) (h0 : 0 ≤ startColumn)
    (he : endColumn ≤ (scanner.lineAtPosition loc.start).length)
    (hspan : endColumn - startColumn > 150) :
    ∃ before after : Str,
      printSourceLocation m_scannerFromSourceName (some loc) _msg
        = .ok (sourceNameHeader (List.replicate (Nat.log 10 startLine.toNat + 1) ' ')
                sourceName startLine startColumn
            ++ messageLine _msg
            ++ (frameLine (List.replicate (Nat.log 10 startLine.toNat + 1) ' ')
              ++ sourceLine startLine before
                  (((scanner.lineAtPosition loc.start).drop startColumn.toNat).take 35
                    ++ " ... ".toList
                    ++ ((scanner.lineAtPosition loc.start).drop (endColumn - 35).toNat).take 35)
                  after
              ++ caretLine (List.replicate (Nat.log 10 startLine.toNat + 1) ' ')
                  (before.map (fun ch => if ch = '\t' then '\t' else ' '))
                  (List.replicate 75 '^'))
            ++ put ['\n'])
      ∧ (((scanner.lineAtPosition loc.start).drop startColumn.toNat).take 35
            ++ " ... ".toList
            ++ ((scanner.lineAtPosition loc.start).drop (endColumn - 35).toNat).take 35).length
          = 75
      ∧ (List.replicate 75 '^').length = 75 := by
  obtain ⟨before, after, h⟩ := printSourceLocation_singleLine_long m_scannerFromSourceName loc
    sourceName scanner _msg startLine startColumn endColumn hname hfn hstart hend hline h0 he hspan
  refine ⟨before, after, h, ?_, by simp⟩
  simp only [List.length_append, List.length_take, List.length_drop,
    show " ... ".toList.length = 5 from rfl]
  omega

set_option maxRecDepth 1000000 in
/-- C5, amended, at a span of 160 columns on line 1 of a source. -/
theorem long_span_highlight_witness :
    ∃ before after : Str,
      printSourceLocation
          (fun _ => .ok (scannerOfSource
            ("\n  let s = ".toList ++ List.replicate 160 'x' ++ ";\n".toList)))
          (some ⟨11, 171, some "c.sol".toList⟩) "too long".toList
        = .ok (sourceNameHeader (List.replicate (Nat.log 10 (1 : Int).toNat + 1) ' ')
                "c.sol".toList 1 10
            ++ messageLine "too long".toList
            ++ (frameLine (List.replicate (Nat.log 10 (1 : Int).toNat + 1) ' ')
              ++ sourceLine 1 before
                  ((((scannerOfSource
                      ("\n  let s = ".toList ++ List.replicate 160 'x' ++ ";\n".toList)).lineAtPosition
                        11).drop (10 : Int).toNat).take 35
                    ++ " ... ".toList
                    ++ (((scannerOfSource
                      ("\n  let s = ".toList ++ List.replicate 160 'x' ++ ";\n".toList)).lineAtPosition
                        11).drop ((170 : Int) - 35).toNat).take 35)
                  after
              ++ caretLine (List.replicate (Nat.log 10 (1 : Int).toNat + 1) ' ')
                  (before.map (fun ch => if ch = '\t' then '\t' else ' '))
                  (List.replicate 75 '^'))
            ++ put ['\n'])
      ∧ ((((scannerOfSource
              ("\n  let s = ".toList ++ List.replicate 160 'x' ++ ";\n".toList)).lineAtPosition
                11).drop (10 : Int).toNat).take 35
            ++ " ... ".toList
            ++ (((scannerOfSource
              ("\n  let s = ".toList ++ List.replicate 160 'x' ++ ";\n".toList)).lineAtPosition
                11).drop ((170 : Int) - 35).toNat).take 35).length
          = 75
      ∧ (List.replicate 75 '^').length = 75 :=
  long_span_highlight
    (fun _ => .ok (scannerOfSource
      ("\n  let s = ".toList ++ List.replicate 160 'x' ++ ";\n".toList)))
    ⟨11, 171, some "c.sol".toList⟩ "c.sol".toList
    (scannerOfSource ("\n  let s = ".toList ++ List.replicate 160 'x' ++ ";\n".toList))
    "too long".toList 1 10 170 rfl rfl (by decide) (by decide) (by decide) (by decide)
    (by decide) (by decide)

/-! ## C6: a long line with an interior window -/

set_option maxRecDepth 1000000 in
/-- C6: a line of 200 characters (65 times `a`, 135 times `b`) enters lines
75-87 with `startColumn = 100` and `locationLength = 20 - 100 = -80`, as for
the multi-line span from line 1, column 100 to line 2, column 20.  The window
is fully interior (`100 > 35` and `100 - 80 + 35 < 200`), and the characters
from `startColumn - 35 = 65` up to `startColumn + locationLength + 35 = 55`
are none; but the count given to `substr` in line 78 is `35 + (-45) = -10`,
so the line that leaves keeps all 135 characters from 65 to the end of the
line between the two markers.  The last part is the whole call on that span. -/
theorem interior_window_negative_length :
    ((List.replicate 65 'a' ++ List.replicate 135 'b').length > 150
        ∧ (100 : Int) > 35
        ∧ (100 : Int) + (-80) + 35 < (List.replicate 65 'a' ++ List.replicate 135 'b').length)
      ∧ ((List.replicate 65 'a' ++ List.replicate 135 'b').take
            ((100 : Int) + (-80) + 35).toNat).drop ((100 : Int) - 35).toNat = []
      ∧ lineLengthTruncation (List.replicate 65 'a' ++ List.replicate 135 'b') 100 20 (-80)
        = .ok (" ... ".toList ++ List.replicate 135 'b' ++ " ...".toList, 40, 40 + (-80))
      ∧ lineLengthTruncation (List.replicate 65 'a' ++ List.replicate 135 'b') 100 20 (-80)
        ≠ .ok (" ... ".toList
              ++ ((List.replicate 65 'a' ++ List.replicate 135 'b').take
                  ((100 : Int) + (-80) + 35).toNat).drop ((100 : Int) - 35).toNat
              ++ " ...".toList,
            40, 40 + (-80))
      ∧ (scannerOfSource ('\n' :: List.replicate 65 'a' ++ List.replicate 135 'b'
            ++ '\n' :: List.replicate 30 'c')).translatePositionToLineColumn 101 = (1, 100)
      ∧ (scannerOfSource ('\n' :: List.replicate 65 'a' ++ List.replicate 135 'b'
            ++ '\n' :: List.replicate 30 'c')).translatePositionToLineColumn 222 = (2, 20)
      ∧ printSourceLocation
          (fun _ => .ok (scannerOfSource ('\n' :: List.replicate 65 'a'
            ++ List.replicate 135 'b' ++ '\n' :: List.replicate 30 'c')))
          (some ⟨101, 222, some "a.sol".toList⟩) []
        = .ok (sourceNameHeader [' '] "a.sol".toList 1 100 ++ put ['\n']
            ++ (frameLine [' ']
              ++ sourceLineToEnd 1 (" ... ".toList ++ List.replicate 35 'b')
                  (List.replicate 100 'b' ++ " ...".toList)
              ++ caretLine [' '] (List.replicate 40 ' ') multiLineNote)
            ++ put ['\n']) := by
  refine ⟨by decide, by decide, by decide, by decide, by decide, by decide, ?_⟩
  rw [printSourceLocation_located _ ⟨101, 222, some "a.sol".toList⟩ "a.sol".toList
    (scannerOfSource ('\n' :: List.replicate 65 'a' ++ List.replicate 135 'b'
      ++ '\n' :: List.replicate 30 'c')) [] 1 100 2 20 rfl rfl (by decide) (by decide)
    (by decide)]
  have hlog : Nat.log 10 (1 : Int).toNat = 0 := by simp
  rw [hlog]
  decide

/-- An interior window whose length is not negative, as for every single-line
span: a line of more than 150 characters enters lines 75-87 with
`startColumn > 35` and `startColumn + locationLength + 35 < line.length()`.
The line that leaves, which lines 89-124 render, is the marker ` ... `, the
characters from `startColumn - 35` up to `startColumn + locationLength + 35`,
and the marker ` ...`; the `startColumn` that leaves is 40 and the `endColumn`
is `40 + locationLength`. -/
theorem interior_window_truncation (line : Str) (startColumn endColumn locationLength : Int)
    (hlen : line.length > 150) (hll : 0 ≤ locationLength) (hs : startColumn > 35)
    (hint : startColumn + locationLength + 35 < line.length) :
    lineLengthTruncation line startColumn endColumn locationLength
      = .ok (" ... ".toList
              ++ (line.take (startColumn + locationLength + 35).toNat).drop
                  (startColumn - 35).toNat
              ++ " ...".toList,
            40, 40 + locationLength) := by
  obtain ⟨s, rfl⟩ := Int.eq_ofNat_of_zero_le (show 0 ≤ startColumn by omega)
  obtain ⟨l, rfl⟩ := Int.eq_ofNat_of_zero_le hll
  have h1 : 35 < s := by omega
  have h2 : s + l + 35 < line.length := by omega
  rw [lineLengthTruncation_long line s l _ hlen (by omega)]
  have e1 : min s 35 + min (l + 35) (line.length - s) = s + l + 35 - (s - 35) := by omega
  have e2 : ((s : Int) + l + 35).toNat = s + l + 35 := by omega
  have e3 : ((s : Int) - 35).toNat = s - 35 := by omega
  simp only [h1, h2, if_true, e1, e2, e3, List.drop_take, List.append_assoc]
  rfl

set_option maxRecDepth 1000000 in
/-- The interior window `foo` at column 60 of a line of 200 characters. -/
theorem interior_window_truncation_witness :
    ((List.replicate 60 'a' ++ "foo".toList ++ List.replicate 137 'b').length > 150
        ∧ (0 : Int) ≤ 3 ∧ (60 : Int) > 35
        ∧ (60 : Int) + 3 + 35
            < (List.replicate 60 'a' ++ "foo".toList ++ List.replicate 137 'b').length)
      ∧ lineLengthTruncation (List.replicate 60 'a' ++ "foo".toList ++ List.replicate 137 'b')
          60 63 3
        = .ok (" ... ".toList
              ++ ((List.replicate 60 'a' ++ "foo".toList ++ List.replicate 137 'b').take
                  ((60 : Int) + 3 + 35).toNat).drop ((60 : Int) - 35).toNat
              ++ " ...".toList,
            40, 40 + 3) :=
  ⟨⟨by decide, by decide, by decide, by decide⟩,
    interior_window_truncation (List.replicate 60 'a' ++ "foo".toList ++ List.replicate 137 'b')
      60 63 3 (by decide) (by decide) (by decide) (by decide)⟩

/-! ## C7: the multi-line case -/

set_option maxRecDepth 1000000 in
/-- C8: a multi-line span with both offsets inside the source, from line 1,
column 0 to line 2, column 160.  The start line is `ab`; line 69 compares the
columns of two different lines, and line 71 calls `line.substr(125)` on a line
of two characters, which throws. -/
theorem substr_out_of_range_example :
    (scannerOfSource ("\nab\n".toList ++ List.replicate 200 'x')).translatePositionToLineColumn 1
        = (1, 0)
      ∧ (scannerOfSource ("\nab\n".toList ++ List.replicate 200 'x')).translatePositionToLineColumn
          164 = (2, 160)
      ∧ (scannerOfSource ("\nab\n".toList ++ List.replicate 200 'x')).lineAtPosition 1
          = "ab".toList
      ∧ substrFrom "ab".toList (160 - 35) = .error .outOfRange
      ∧ printSourceLocation
          (fun _ => .ok (scannerOfSource ("\nab\n".toList ++ List.replicate 200 'x')))
          (some ⟨1, 164, some "a.sol".toList⟩) []
        = .error .outOfRange := by
  refine ⟨by decide, by decide, by decide, by decide, ?_⟩
  rw [printSourceLocation_located _ ⟨1, 164, some "a.sol".toList⟩ "a.sol".toList
    (scannerOfSource ("\nab\n".toList ++ List.replicate 200 'x')) [] 1 0 2 160 rfl rfl
    (by decide) (by decide) (by decide)]
  decide

/-! ## C9: the left padding -/

/-- C9: for every start line of at least 1 the left-pad width of line 58 is
`floor(log10(startLine)) + 1`: it is the `w` with `10^(w-1) <= startLine < 10^w`,
the number of decimal digits that `<<` prints for `startLine`.  In particular
7 gives 1, 42 gives 2 and 100 gives 3. -/
theorem leftpad_is_digit_count (startLine : Int) (h : 1 ≤ startLine) :
    ∃ w : Nat, leftpadOf startLine = .ok (w : Int)
      ∧ w = Nat.log 10 startLine.toNat + 1
      ∧ (10 : Int) ^ (w - 1) ≤ startLine ∧ startLine < (10 : Int) ^ w
      ∧ w = (decimal startLine).length
      ∧ stringFill w ' ' = .ok (List.replicate w ' ')
      ∧ leftpadOf 7 = .ok 1 ∧ leftpadOf 42 = .ok 2 ∧ leftpadOf 100 = .ok 3 := by
  refine ⟨Nat.log 10 startLine.toNat + 1, leftpadOf_pos startLine h, rfl, ?_, ?_, ?_, ?_, ?_, ?_, ?_⟩
  · have h1 : 10 ^ Nat.log 10 startLine.toNat ≤ startLine.toNat :=
      Nat.pow_log_le_self 10 (by omega)
    have h2 : ((10 ^ Nat.log 10 startLine.toNat : Nat) : Int) ≤ (startLine.toNat : Int) := by
      exact_mod_cast h1
    have h3 : (startLine.toNat : Int) = startLine := Int.toNat_of_nonneg (by omega)
    simpa [h3] using h2
  · have h1 : startLine.toNat < 10 ^ (Nat.log 10 startLine.toNat + 1) :=
      Nat.lt_pow_succ_log_self (by norm_num) _
    have h2 : ((startLine.toNat : Nat) : Int) < ((10 ^ (Nat.log 10 startLine.toNat + 1) : Nat) : Int) := by
      exact_mod_cast h1
    have h3 : (startLine.toNat : Int) = startLine := Int.toNat_of_nonneg (by omega)
    simpa [h3] using h2
  · exact (decimal_length_of_pos startLine h).symm
  · simp [stringFill]
    omega
  · simp [leftpadOf, log10ToInt, Nat.log]
  · simp [leftpadOf, log10ToInt, Nat.log]
  · simp [leftpadOf, log10ToInt, Nat.log]

/-- C9 at the start line 42. -/
theorem leftpad_is_digit_count_witness :
    (1 : Int) ≤ 42 ∧ ∃ w : Nat, leftpadOf 42 = .ok (w : Int)
      ∧ w = Nat.log 10 (42 : Int).toNat + 1
      ∧ (10 : Int) ^ (w - 1) ≤ 42 ∧ (42 : Int) < (10 : Int) ^ w
      ∧ w = (decimal 42).length
      ∧ stringFill w ' ' = .ok (List.replicate w ' ')
      ∧ leftpadOf 7 = .ok 1 ∧ leftpadOf 42 = .ok 2 ∧ leftpadOf 100 = .ok 3 :=
  ⟨by decide, leftpad_is_digit_count 42 (by decide)⟩

/-! ## C10: the start line 0 -/

/-- C10: line 58 has no guard.  For the start line 0 (the first line of a
source) and for a negative start line the width is not 1: the conversion of
`log10(startLine)` is undefined, and a location on the first line of a source
makes the whole call fail at line 58. -/
theorem leftpad_unguarded_at_zero :
    leftpadOf 0 = .error .undefinedConversion
      ∧ leftpadOf (-1) = .error .undefinedConversion
      ∧ leftpadOf 0 ≠ .ok 1
      ∧ (scannerOfSource "x".toList).translatePositionToLineColumn 0 = (0, 0)
      ∧ printSourceLocation (fun _ => .ok (scannerOfSource "x".toList))
          (some ⟨0, 1, some "a.sol".toList⟩) [] = .error .undefinedConversion := by
  decide

/-! ## The diagnostic record -/

/-- The loop of lines 163-164 visits the entries once each, in order: its
output is the outputs of the calls, one after the other. -/
theorem printSecondaryLocations_eq (fn : ScannerFromSourceNameFun)
    (infos : List (Str × SourceLocation)) :
    printSecondaryLocations fn infos
      = (infos.mapM (fun info => printSourceLocation fn (some info.2) info.1)
          >>= fun outs => .ok outs.flatten) := by
  induction infos with
  | nil => rfl
  | cons info rest ih =>
    simp only [printSecondaryLocations, List.mapM_cons, ih]
    cases printSourceLocation fn (some info.2) info.1 with
    | error e => rfl
    | ok first =>
      cases List.mapM (fun info => printSourceLocation fn (some info.2) info.1) rest with
      | error e => rfl
      | ok outs => rfl

/-- The whole of `printExceptionInformation` as the header, the newline of
lines 157-158, and the calls of lines 160 and 164 in their order. -/
theorem printExceptionInformation_eq (fn : ScannerFromSourceNameFun) (e : Exception)
    (name : Str) :
    printExceptionInformation fn e name
      = (printSourceLocation fn e.errinfo_sourceLocation []
          >>= fun primary =>
            (secondaryEntries e).mapM (fun info => printSourceLocation fn (some info.2) info.1)
          >>= fun outs =>
            .ok (exceptionHeader e name ++ unlocatedNewline e.errinfo_sourceLocation
              ++ primary ++ outs.flatten)) := by
  unfold printExceptionInformation secondaryEntries
  cases hp : printSourceLocation fn e.errinfo_sourceLocation [] with
  | error err => simp [defaultMsg, hp]
  | ok primary =>
    cases hs : e.errinfo_secondarySourceLocation with
    | none =>
      simp only [defaultMsg, hp, ok_bind, List.mapM_nil, pure_bind, List.flatten_nil,
        List.append_nil]
    | some s =>
      cases hi : s.infos with
      | nil =>
        simp only [defaultMsg, hp, hi, ok_bind, List.mapM_nil, pure_bind, List.flatten_nil,
          List.append_nil, List.isEmpty_nil, Bool.not_true, Bool.false_eq_true, if_false]
      | cons info rest =>
        simp only [defaultMsg, hp, hi, ok_bind, List.isEmpty_cons, Bool.not_false, if_true,
          printSecondaryLocations_eq]
        cases List.mapM (fun info => printSourceLocation fn (some info.2) info.1)
            (info :: rest) with
        | error err => rfl
        | ok outs => rfl

theorem plain_exceptionHeader (e : Exception) (name : Str) :
    plain (exceptionHeader e name)
      = name ++ (match e.errinfo_comment with
          | some description => ": ".toList ++ description
          | none => []) ++ ['\n'] := by
  unfold exceptionHeader
  cases e.errinfo_comment <;> simp [errorColor, plain]

/-- C11, as stated, fails: a record without a primary location but with a
secondary entry on line 1 of a source.  After the header line and the one blank
line the output goes on with the source excerpt of the secondary entry. -/
theorem unlocated_record_with_secondary_counterexample :
    printExceptionInformation (fun _ => .ok (scannerOfSource "\nfoo = bar;\n".toList))
        ⟨none, some ⟨[("see".toList, ⟨7, 10, some "a.sol".toList⟩)]⟩, none⟩ "Error".toList
      = .ok (exceptionHeader ⟨none, some ⟨[("see".toList, ⟨7, 10, some "a.sol".toList⟩)]⟩, none⟩
              "Error".toList
          ++ put ['\n']
          ++ (sourceNameHeader [' '] "a.sol".toList 1 6 ++ messageLine "see".toList
            ++ (frameLine [' '] ++ sourceLine 1 "foo = ".toList "bar".toList ";".toList
              ++ caretLine [' '] "      ".toList "^^^".toList)
            ++ put ['\n']))
    ∧ plain (exceptionHeader ⟨none, some ⟨[("see".toList, ⟨7, 10, some "a.sol".toList⟩)]⟩, none⟩
              "Error".toList
          ++ put ['\n']
          ++ (sourceNameHeader [' '] "a.sol".toList 1 6 ++ messageLine "see".toList
            ++ (frameLine [' '] ++ sourceLine 1 "foo = ".toList "bar".toList ";".toList
              ++ caretLine [' '] "      ".toList "^^^".toList)
            ++ put ['\n']))
        = "Error\n\n --> a.sol:2:7: see\n  |\n1 | foo = bar;\n  |       ^^^\n\n".toList := by
  refine ⟨?_, by decide⟩
  have h1 : printSourceLocation (fun _ => .ok (scannerOfSource "\nfoo = bar;\n".toList))
      (some ⟨7, 10, some "a.sol".toList⟩) "see".toList
      = .ok (sourceNameHeader [' '] "a.sol".toList 1 6 ++ messageLine "see".toList
            ++ (frameLine [' '] ++ sourceLine 1 "foo = ".toList "bar".toList ";".toList
              ++ caretLine [' '] "      ".toList "^^^".toList)
            ++ put ['\n']) := by
    rw [printSourceLocation_singleLine_short _ ⟨7, 10, some "a.sol".toList⟩ "a.sol".toList
      (scannerOfSource "\nfoo = bar;\n".toList) "see".toList 1 6 9 rfl rfl (by decide) (by decide)
      (by decide) (by decide) (by decide) (by decide) (by decide) (by decide)]
    have hlog : Nat.log 10 (1 : Int).toNat = 0 := by simp
    rw [hlog]
    decide
  simp only [printExceptionInformation, printSecondaryLocations, h1, defaultMsg, ok_bind]
  decide

/-- C11, amended: for every record whose primary location is absent or has no
source name, `printExceptionInformation` writes the header line (the name, then
`: ` and the comment if there is one), exactly one blank line and nothing for
the primary location; what follows is the output of `printSourceLocation` for
the secondary entries, so a record without secondary entries gives exactly the
header line and one blank line. -/
theorem unlocated_record_output (m_scannerFromSourceName : ScannerFromSourceNameFun)
    (_exception : Exception) (_name : Str)
    (h : _exception.errinfo_sourceLocation = none
      ∨ ∃ l, _exception.errinfo_sourceLocation = some l ∧ l.sourceName = none) :
    printExceptionInformation m_scannerFromSourceName _exception _name
        = ((secondaryEntries _exception).mapM
              (fun info => printSourceLocation m_scannerFromSourceName (some info.2) info.1)
            >>= fun outs => .ok (exceptionHeader _exception _name ++ put ['\n'] ++ outs.flatten))
      ∧ plain (exceptionHeader _exception _name)
        = _name ++ (match _exception.errinfo_comment with
            | some description => ": ".toList ++ description
            | none => []) ++ ['\n']
      ∧ (secondaryEntries _exception = [] →
          printExceptionInformation m_scannerFromSourceName _exception _name
            = .ok (exceptionHeader _exception _name ++ put ['\n'])) := by
  have hp : printSourceLocation m_scannerFromSourceName _exception.errinfo_sourceLocation []
      = .ok [] := by
    rcases h with h | ⟨l, h, hl⟩
    · rw [h]; rfl
    · rw [h]; simp [printSourceLocation, hl]
  have hn : unlocatedNewline _exception.errinfo_sourceLocation = put ['\n'] := by
    rcases h with h | ⟨l, h, hl⟩
    · rw [h]; rfl
    · rw [h]; simp [unlocatedNewline, hl]
  have heq := printExceptionInformation_eq m_scannerFromSourceName _exception _name
  rw [hp, hn] at heq
  simp only [ok_bind, List.append_nil] at heq
  refine ⟨heq, plain_exceptionHeader _exception _name, ?_⟩
  intro hs
  rw [heq, hs]
  simp only [List.mapM_nil, pure_bind, List.flatten_nil, List.append_nil]

/-- C11, amended, at a record whose primary location has no source name, with
a comment and without secondary locations. -/
theorem unlocated_record_output_witness :
    printExceptionInformation (fun _ => .error .unknownSource)
          ⟨some ⟨3, 5, none⟩, none, some "bad".toList⟩ "Error".toList
        = ((secondaryEntries ⟨some ⟨3, 5, none⟩, none, some "bad".toList⟩).mapM
              (fun info => printSourceLocation (fun _ => .error .unknownSource)
                (some info.2) info.1)
            >>= fun outs => .ok (exceptionHeader ⟨some ⟨3, 5, none⟩, none, some "bad".toList⟩
                "Error".toList ++ put ['\n'] ++ outs.flatten))
      ∧ plain (exceptionHeader ⟨some ⟨3, 5, none⟩, none, some "bad".toList⟩ "Error".toList)
        = "Error".toList ++ (match (⟨some ⟨3, 5, none⟩, none, some "bad".toList⟩ :
              Exception).errinfo_comment with
            | some description => ": ".toList ++ description
            | none => []) ++ ['\n']
      ∧ (secondaryEntries ⟨some ⟨3, 5, none⟩, none, some "bad".toList⟩ = [] →
          printExceptionInformation (fun _ => .error .unknownSource)
              ⟨some ⟨3, 5, none⟩, none, some "bad".toList⟩ "Error".toList
            = .ok (exceptionHeader ⟨some ⟨3, 5, none⟩, none, some "bad".toList⟩ "Error".toList
                ++ put ['\n'])) :=
  unlocated_record_output (fun _ => .error .unknownSource)
    ⟨some ⟨3, 5, none⟩, none, some "bad".toList⟩ "Error".toList (Or.inr ⟨_, rfl, rfl⟩)

/-! ## C12: the order of the parts of a diagnostic -/

/-- C13: a record with the comment `bad` and no location.  Lines 151-153 write
`errorColor`, the name, `messageColor`, `: bad` and a newline, and no reset:
the output has no reset marker at all and a style is still active when the
call returns.  The sibling branch of line 155, for a record without comment,
does reset. -/
theorem header_with_comment_leaks_style :
    printExceptionInformation (fun _ => .error .unknownSource)
        ⟨none, none, some "bad".toList⟩ "Error".toList
      = .ok (errorColor ++ put "Error".toList ++ messageColor ++ put ": bad".toList
          ++ put ['\n'] ++ put ['\n'])
    ∧ Tok.reset ∉ errorColor ++ put "Error".toList ++ messageColor ++ put ": bad".toList
          ++ put ['\n'] ++ put ['\n']
    ∧ styleActive false (errorColor ++ put "Error".toList ++ messageColor ++ put ": bad".toList
          ++ put ['\n'] ++ put ['\n']) = true
    ∧ printExceptionInformation (fun _ => .error .unknownSource)
        ⟨none, none, none⟩ "Error".toList
      = .ok (errorColor ++ put "Error".toList ++ [Tok.reset] ++ put ['\n'] ++ put ['\n'])
    ∧ styleActive false (errorColor ++ put "Error".toList ++ [Tok.reset] ++ put ['\n']
          ++ put ['\n']) = false := by
  decide

/-! ## C14: the line number in the margin -/

/-- C14: the span 7-10 lies on the second line of its source, which the scanner
reports as line 1.  The header shows the line number 2 (line 139 adds 1), the
margin of the source line shows 1 (line 95 writes `startLine` as it is). -/
theorem margin_line_number_is_zero_based :
    (scannerOfSource "\nfoo = bar;\n".toList).translatePositionToLineColumn 7 = (1, 6)
      ∧ printSourceLocation (fun _ => .ok (scannerOfSource "\nfoo = bar;\n".toList))
          (some ⟨7, 10, some "test.sol".toList⟩) []
        = .ok (sourceNameHeader [' '] "test.sol".toList 1 6 ++ messageLine []
            ++ (frameLine [' '] ++ sourceLine 1 "foo = ".toList "bar".toList ";".toList
              ++ caretLine [' '] "      ".toList "^^^".toList)
            ++ put ['\n'])
      ∧ plain (sourceNameHeader [' '] "test.sol".toList 1 6) = " --> test.sol:2:7: ".toList
      ∧ plain (sourceLine 1 "foo = ".toList "bar".toList ";".toList)
        = "1 | foo = bar;\n".toList := by
  refine ⟨by decide, ?_, by decide, by decide⟩
  rw [printSourceLocation_singleLine_short _ ⟨7, 10, some "test.sol".toList⟩ "test.sol".toList
    (scannerOfSource "\nfoo = bar;\n".toList) [] 1 6 9 rfl rfl (by decide) (by decide)
    (by decide) (by decide) (by decide) (by decide) (by decide) (by decide)]
  have hlog : Nat.log 10 (1 : Int).toNat = 0 := by simp
  rw [hlog]
  decide

/-! ## C15: the markers of the line-length truncation -/

set_option maxRecDepth 1000000 in
/-- C15: a line of 200 characters enters lines 75-87 with `startColumn = 180`
and `locationLength = 2 - 180 = -178`, as for a multi-line span that ends at
column 2 of the next line.  The count given to `substr` in line 78 is
`35 + (-143) = -108`, so the kept window runs from 145 to the end of the line;
no character after it is dropped, and yet line 80 appends ` ...`.  The second
part is the whole call on such a span. -/
theorem trailing_marker_without_cut :
    lineLengthTruncation (List.replicate 180 'a' ++ List.replicate 20 'b') 180 2 (-178)
        = .ok (" ... ".toList ++ (List.replicate 35 'a' ++ List.replicate 20 'b')
            ++ " ...".toList, 40, -138)
      ∧ (List.replicate 180 'a' ++ List.replicate 20 'b').drop 145
        = List.replicate 35 'a' ++ List.replicate 20 'b'
      ∧ (scannerOfSource ('\n' :: List.replicate 180 'a' ++ List.replicate 20 'b'
            ++ "\ncd;".toList)).translatePositionToLineColumn 181 = (1, 180)
      ∧ (scannerOfSource ('\n' :: List.replicate 180 'a' ++ List.replicate 20 'b'
            ++ "\ncd;".toList)).translatePositionToLineColumn 204 = (2, 2)
      ∧ printSourceLocation
          (fun _ => .ok (scannerOfSource ('\n' :: List.replicate 180 'a'
            ++ List.replicate 20 'b' ++ "\ncd;".toList)))
          (some ⟨181, 204, some "a.sol".toList⟩) []
        = .ok (sourceNameHeader [' '] "a.sol".toList 1 180 ++ put ['\n']
            ++ (frameLine [' ']
              ++ sourceLineToEnd 1 (" ... ".toList ++ List.replicate 35 'a')
                  (List.replicate 20 'b' ++ " ...".toList)
              ++ caretLine [' '] (List.replicate 40 ' ') multiLineNote)
            ++ put ['\n']) := by
  refine ⟨by decide, by decide, by decide, by decide, ?_⟩
  rw [printSourceLocation_located _ ⟨181, 204, some "a.sol".toList⟩ "a.sol".toList
    (scannerOfSource ('\n' :: List.replicate 180 'a' ++ List.replicate 20 'b'
      ++ "\ncd;".toList)) [] 1 180 2 2 rfl rfl (by decide) (by decide) (by decide)]
  have hlog : Nat.log 10 (1 : Int).toNat = 0 := by simp
  rw [hlog]
  decide

/-! ## The stages of a single-line span -/

/-- Lines 68-74 on a single-line span with columns inside the line: the
highlighted length that leaves is at most 150 and fits into the line that
leaves. -/
theorem spanLengthTruncation_singleLine (line : Str) (s e : Nat) (hse : s ≤ e)
    (he : e ≤ line.length) :
    ∃ (line1 : Str) (l : Nat),
      spanLengthTruncation line s e = .ok (line1, (s : Int) + l, l)
      ∧ l ≤ 150 ∧ s + l ≤ line1.length
      ∧ (e ≤ s + 150 → line1 = line ∧ l = e - s)
      ∧ (s + 150 < e →
          line1 = line.take (s + 35) ++ " ... ".toList ++ line.drop (e - 35) ∧ l = 75) := by
  by_cases hspan : s + 150 < e
  · refine ⟨line.take (s + 35) ++ " ... ".toList ++ line.drop (e - 35), 75, ?_, by omega, ?_,
      fun h => by omega, fun _ => ⟨rfl, rfl⟩⟩
    · have e35 : ((e : Int) - 35).toNat = e - 35 := by omega
      rw [spanLengthTruncation_long line s e (by omega) (by omega), e35]
      rfl
    · simp only [List.length_append, List.length_take, List.length_drop,
        show " ... ".toList.length = 5 from rfl]
      omega
  · refine ⟨line, e - s, ?_, by omega, by omega, fun _ => ⟨rfl, rfl⟩, fun h => by omega⟩
    rw [spanLengthTruncation_short line s e (by omega)]
    have e1 : (e : Int) = (s : Int) + ((e - s : Nat) : Int) := by omega
    have e2 : (e : Int) - (s : Int) = ((e - s : Nat) : Int) := by omega
    rw [e2, ← e1]

/-- Lines 75-87 on a start column and a highlighted length inside the line:
what leaves is in range, keeps the highlighted text, is the line that entered
when that has at most 150 characters, and has at most `l + 79` characters
otherwise. -/
theorem lineLengthTruncation_singleLine (line : Str) (s l : Nat) (h : s + l ≤ line.length) :
    ∃ (line2 : Str) (s2 : Nat),
      lineLengthTruncation line s ((s : Int) + l) l = .ok (line2, (s2 : Int), (s2 : Int) + l)
      ∧ s2 + l ≤ line2.length
      ∧ (line2.drop s2).take l = (line.drop s).take l
      ∧ (line.length ≤ 150 → line2 = line ∧ s2 = s)
      ∧ (150 < line.length → line2.length ≤ l + 79) := by
  obtain ⟨line2, s2, h2, hfit, hm⟩ := lineLengthTruncation_marked line s l h
  refine ⟨line2, s2, h2, hfit, hm, ?_, ?_⟩
  · intro hshort
    rw [lineLengthTruncation_short line _ _ _ hshort] at h2
    simp only [Except.ok.injEq, Prod.mk.injEq] at h2
    obtain ⟨h3, h4, -⟩ := h2
    exact ⟨h3.symm, by omega⟩
  · intro hlong
    rw [lineLengthTruncation_long line s l _ hlong h] at h2
    simp only [Except.ok.injEq, Prod.mk.injEq] at h2
    obtain ⟨h3, -, -⟩ := h2
    rw [← h3]
    by_cases h1 : 35 < s <;> by_cases h2 : s + l + 35 < line.length <;>
      simp only [h1, h2, if_true, if_false, List.length_append, List.length_take,
        List.length_drop, List.length_nil, show " ... ".toList.length = 5 from rfl,
        show " ...".toList.length = 4 from rfl] <;>
      omega

/-- A single-line span with columns inside the line, on a start line of at
least 1: the two truncations succeed and the complete output is the header,
the message line and the three framed lines cut out of the line that leaves
the truncations. -/
theorem printSourceLocation_singleLine_layout (fn : ScannerFromSourceNameFun)
    (loc : SourceLocation) (name : Str) (scanner : Scanner) (msg : Str)
    (startLine : Int) (s e : Nat)
    (hname : loc.sourceName = some name) (hfn : fn name = .ok scanner)
    (hstart : scanner.translatePositionToLineColumn loc.start = (startLine, (s : Int)))
    (hend : scanner.translatePositionToLineColumn loc.end_ = (startLine, (e : Int)))
    (hline : 1 ≤ startLine) (hse : s ≤ e) (he : e ≤ (scanner.lineAtPosition loc.start).length) :
    ∃ (line1 line2 : Str) (l s2 : Nat),
      spanLengthTruncation (scanner.lineAtPosition loc.start) s e = .ok (line1, (s : Int) + l, l)
      ∧ lineLengthTruncation line1 s ((s : Int) + l) l = .ok (line2, (s2 : Int), (s2 : Int) + l)
      ∧ l ≤ 150 ∧ s + l ≤ line1.length ∧ s2 + l ≤ line2.length
      ∧ (line2.drop s2).take l = (line1.drop s).take l
      ∧ (e ≤ s + 150 → line1 = scanner.lineAtPosition loc.start ∧ l = e - s)
      ∧ (line1.length ≤ 150 → line2 = line1 ∧ s2 = s)
      ∧ (150 < line1.length → line2.length ≤ l + 79)
      ∧ printSourceLocation fn (some loc) msg
        = .ok (sourceNameHeader (List.replicate (Nat.log 10 startLine.toNat + 1) ' ')
                name startLine s
            ++ messageLine msg
            ++ (frameLine (List.replicate (Nat.log 10 startLine.toNat + 1) ' ')
              ++ sourceLine startLine (line2.take s2) ((line2.drop s2).take l)
                  (line2.drop (s2 + l))
              ++ caretLine (List.replicate (Nat.log 10 startLine.toNat + 1) ' ')
                  ((line2.take s2).map (fun ch => if ch = '\t' then '\t' else ' '))
                  (List.replicate l '^'))
            ++ put ['\n']) := by
  obtain ⟨line1, l, h1, hl, hfit1, hshort1, -⟩ :=
    spanLengthTruncation_singleLine (scanner.lineAtPosition loc.start) s e hse he
  obtain ⟨line2, s2, h2, hfit2, hm, hshort2, hlong2⟩ :=
    lineLengthTruncation_singleLine line1 s l hfit1
  refine ⟨line1, line2, l, s2, h1, h2, hl, hfit1, hfit2, hm, hshort1, hshort2, hlong2, ?_⟩
  rw [printSourceLocation_located fn loc name scanner msg startLine s startLine e
    hname hfn hstart hend hline, h1]
  simp only [ok_bind]
  rw [h2]
  simp only [ok_bind, if_true]
  rw [singleLineCase_inRange _ startLine line2 s2 ((s2 : Int) + l) l (by omega) (by omega)
    (by omega) (by omega) (by omega)]
  have t1 : ((s2 : Int) + l).toNat = s2 + l := by omega
  simp only [ok_bind, Int.toNat_ofNat, t1]

/-- A call that returns an output was made on a start line of at least 1. -/
theorem startLine_pos_of_ok (fn : ScannerFromSourceNameFun) (loc : SourceLocation)
    (name : Str) (scanner : Scanner) (msg : Str) (startLine startColumn : Int)
    (hname : loc.sourceName = some name) (hfn : fn name = .ok scanner)
    (hstart : scanner.translatePositionToLineColumn loc.start = (startLine, startColumn))
    (out : List Tok) (hout : printSourceLocation fn (some loc) msg = .ok out) :
    1 ≤ startLine := by
  by_contra hneg
  rw [printSourceLocation_nonpositive_line fn loc name scanner msg startLine startColumn
    hname hfn hstart (by omega)] at hout
  cases hout

/-- The three pieces that lines 96-98 cut out of a line make up the line. -/
theorem take_mid_drop {α : Type} (L : List α) (a l : Nat) :
    L.take a ++ (L.drop a).take l ++ L.drop (a + l) = L := by
  have h : (L.drop a).take l ++ L.drop (a + l) = L.drop a := by
    have := List.take_append_drop l (L.drop a)
    rw [List.drop_drop] at this
    exact this
  rw [List.append_assoc, h, List.take_append_drop]

/-! ## C16: the caret line under truncation -/

set_option maxRecDepth 1000000 in
/-- C16: the single-line span `foo` at columns 60-63 of a line of 200
characters, which is the first line of its source.  The columns lie in the
line and the line-length truncation would fire, but the scanner reports the
start line 0 and the call fails at line 58: no source line and no caret line
is written, so there is no caret under the highlighted region. -/
theorem caret_alignment_on_first_line_fails :
    (scannerOfSource (List.replicate 60 'a' ++ "foo".toList
          ++ List.replicate 137 'b' ++ ['\n'])).translatePositionToLineColumn 60 = (0, 60)
      ∧ (scannerOfSource (List.replicate 60 'a' ++ "foo".toList
          ++ List.replicate 137 'b' ++ ['\n'])).translatePositionToLineColumn 63 = (0, 63)
      ∧ ((scannerOfSource (List.replicate 60 'a' ++ "foo".toList
          ++ List.replicate 137 'b' ++ ['\n'])).lineAtPosition 60).length = 200
      ∧ printSourceLocation
          (fun _ => .ok (scannerOfSource (List.replicate 60 'a' ++ "foo".toList
            ++ List.replicate 137 'b' ++ ['\n'])))
          (some ⟨60, 63, some "a.sol".toList⟩) []
        = .error .undefinedConversion := by
  decide

/-- Caret-line alignment where the call gets past line 58: for every
single-line span with `0 <= startColumn <= endColumn <= `
line length, whichever truncation fires.  First, lines 68-108 on every padding
width: the truncations succeed and the caret line has, before its carets, one
character for each unhighlighted character before the highlighted region of
the source line, and as many carets as there are highlighted characters.
Second, the same for every output of `printSourceLocation`.  Third, an output
is written whenever the start line is at least 1. -/
theorem caret_alignment_kept (m_scannerFromSourceName : ScannerFromSourceNameFun)
    (loc : SourceLocation) (sourceName : Str) (scanner : Scanner) (_msg : Str)
    (startLine startColumn endColumn : Int)
    (hname : loc.sourceName = some sourceName)
    (hfn : m_scannerFromSourceName sourceName = .ok scanner)
    (hstart : scanner.translatePositionToLineColumn loc.start = (startLine, startColumn))
    (hend : scanner.translatePositionToLineColumn loc.end_ = (startLine, endColumn))
    (h0 : 0 ≤ startColumn) (hse : startColumn ≤ endColumn)
    (he : endColumn ≤ (scanner.lineAtPosition loc.start).length) :
    (∃ (line1 line2 : Str) (l s2 : Nat),
        spanLengthTruncation (scanner.lineAtPosition loc.start) startColumn endColumn
          = .ok (line1, startColumn + l, l)
        ∧ lineLengthTruncation line1 startColumn (startColumn + l) l
          = .ok (line2, (s2 : Int), (s2 : Int) + l)
        ∧ ((line2.drop s2).take l).length = l
        ∧ ∀ w : Nat, singleLineCase w startLine line2 s2 ((s2 : Int) + l) l
            = .ok (frameLine (List.replicate w ' ')
                ++ sourceLine startLine (line2.take s2) ((line2.drop s2).take l)
                    (line2.drop (s2 + l))
                ++ caretLine (List.replicate w ' ')
                    ((line2.take s2).map (fun ch => if ch = '\t' then '\t' else ' '))
                    (List.replicate l '^')))
      ∧ (∀ out, printSourceLocation m_scannerFromSourceName (some loc) _msg = .ok out →
        ∃ pad before marked after : Str,
          out = sourceNameHeader pad sourceName startLine startColumn ++ messageLine _msg
              ++ (frameLine pad ++ sourceLine startLine before marked after
                ++ caretLine pad (before.map (fun ch => if ch = '\t' then '\t' else ' '))
                    (List.replicate marked.length '^'))
              ++ put ['\n']
          ∧ (before.map (fun ch => if ch = '\t' then '\t' else ' ')).length = before.length
          ∧ (List.replicate marked.length '^').length = marked.length)
      ∧ (1 ≤ startLine →
          ∃ out, printSourceLocation m_scannerFromSourceName (some loc) _msg = .ok out) := by
  obtain ⟨s, rfl⟩ := Int.eq_ofNat_of_zero_le h0
  obtain ⟨e, rfl⟩ := Int.eq_ofNat_of_zero_le (show 0 ≤ endColumn by omega)
  have key := fun hline => printSourceLocation_singleLine_layout m_scannerFromSourceName loc
    sourceName scanner _msg startLine s e hname hfn hstart hend hline (by omega) (by omega)
  refine ⟨?_, ?_, ?_⟩
  · obtain ⟨line1, l, h1, -, hfit1, -, -⟩ :=
      spanLengthTruncation_singleLine (scanner.lineAtPosition loc.start) s e (by omega)
        (by omega)
    obtain ⟨line2, s2, h2, hfit2, -, -, -⟩ := lineLengthTruncation_singleLine line1 s l hfit1
    refine ⟨line1, line2, l, s2, h1, h2, ?_, ?_⟩
    · simp only [List.length_take, List.length_drop]
      omega
    · intro w
      rw [singleLineCase_inRange w startLine line2 s2 ((s2 : Int) + l) l (by omega) (by omega)
        (by omega) (by omega) (by omega)]
      have t1 : ((s2 : Int) + l).toNat = s2 + l := by omega
      simp only [Int.toNat_ofNat, t1]
  · intro out hout
    have hline := startLine_pos_of_ok m_scannerFromSourceName loc sourceName scanner _msg
      startLine s hname hfn hstart out hout
    obtain ⟨line1, line2, l, s2, -, -, -, -, hfit2, -, -, -, -, hprint⟩ := key hline
    rw [hprint] at hout
    have hlen : ((line2.drop s2).take l).length = l := by
      simp only [List.length_take, List.length_drop]
      omega
    refine ⟨List.replicate (Nat.log 10 startLine.toNat + 1) ' ', line2.take s2,
      (line2.drop s2).take l, line2.drop (s2 + l), ?_, by simp, by simp⟩
    rw [hlen]
    exact (Except.ok.inj hout).symm
  · intro hline
    obtain ⟨line1, line2, l, s2, -, -, -, -, -, -, -, -, -, hprint⟩ := key hline
    exact ⟨_, hprint⟩

set_option maxRecDepth 1000000 in
/-- Caret-line alignment at the span `foo` at columns 60-63 of a line of 200
characters, which is line 1 of its source. -/
theorem caret_alignment_kept_witness :
    (∃ (line1 line2 : Str) (l s2 : Nat),
        spanLengthTruncation ((scannerOfSource
          ('\n' :: List.replicate 60 'a' ++ "foo".toList ++ List.replicate 137 'b')).lineAtPosition 61)
          (60 : Int) (63 : Int)
          = .ok (line1, (60 : Int) + l, l)
        ∧ lineLengthTruncation line1 (60 : Int) ((60 : Int) + l) l
          = .ok (line2, (s2 : Int), (s2 : Int) + l)
        ∧ ((line2.drop s2).take l).length = l
        ∧ ∀ w : Nat, singleLineCase w (1 : Int) line2 s2 ((s2 : Int) + l) l
            = .ok (frameLine (List.replicate w ' ')
                ++ sourceLine (1 : Int) (line2.take s2) ((line2.drop s2).take l)
                    (line2.drop (s2 + l))
                ++ caretLine (List.replicate w ' ')
                    ((line2.take s2).map (fun ch => if ch = '\t' then '\t' else ' '))
                    (List.replicate l '^')))
      ∧ (∀ out, printSourceLocation (fun _ => .ok (scannerOfSource
          ('\n' :: List.replicate 60 'a' ++ "foo".toList ++ List.replicate 137 'b')))
          (some ⟨61, 64, some "a.sol".toList⟩) "m".toList = .ok out →
        ∃ pad before marked after : Str,
          out = sourceNameHeader pad "a.sol".toList (1 : Int) (60 : Int) ++ messageLine "m".toList
              ++ (frameLine pad ++ sourceLine (1 : Int) before marked after
                ++ caretLine pad (before.map (fun ch => if ch = '\t' then '\t' else ' '))
                    (List.replicate marked.length '^'))
              ++ put ['\n']
          ∧ (before.map (fun ch => if ch = '\t' then '\t' else ' ')).length = before.length
          ∧ (List.replicate marked.length '^').length = marked.length)
      ∧ (1 ≤ (1 : Int) →
          ∃ out, printSourceLocation (fun _ => .ok (scannerOfSource
          ('\n' :: List.replicate 60 'a' ++ "foo".toList ++ List.replicate 137 'b')))
          (some ⟨61, 64, some "a.sol".toList⟩) "m".toList = .ok out) :=
  caret_alignment_kept
    (fun _ => .ok (scannerOfSource
      ('\n' :: List.replicate 60 'a' ++ "foo".toList ++ List.replicate 137 'b')))
    ⟨61, 64, some "a.sol".toList⟩ "a.sol".toList
    (scannerOfSource ('\n' :: List.replicate 60 'a' ++ "foo".toList ++ List.replicate 137 'b'))
    "m".toList 1 60 63
    rfl rfl (by decide) (by decide) (by decide) (by decide) (by decide)

/-! ## C17: the highlighted text under the line-length truncation -/

set_option maxRecDepth 1000000 in
/-- C17: the single-line span `bar` at columns 100-103 of a line of 200
characters, which is the first line of its source.  The columns lie in the
line and the span has 3 columns, but the scanner reports the start line 0 and
the call fails at line 58: no source line is rendered, so the characters
`[100, 103)` of the original line are not highlighted anywhere. -/
theorem highlighted_text_on_first_line_fails :
    (scannerOfSource (List.replicate 100 'a' ++ "bar".toList
          ++ List.replicate 97 'c' ++ ['\n'])).translatePositionToLineColumn 100 = (0, 100)
      ∧ (scannerOfSource (List.replicate 100 'a' ++ "bar".toList
          ++ List.replicate 97 'c' ++ ['\n'])).translatePositionToLineColumn 103 = (0, 103)
      ∧ ((scannerOfSource (List.replicate 100 'a' ++ "bar".toList
          ++ List.replicate 97 'c' ++ ['\n'])).lineAtPosition 100).length = 200
      ∧ (((scannerOfSource (List.replicate 100 'a' ++ "bar".toList
          ++ List.replicate 97 'c' ++ ['\n'])).lineAtPosition 100).drop 100).take 3
        = "bar".toList
      ∧ printSourceLocation
          (fun _ => .ok (scannerOfSource (List.replicate 100 'a' ++ "bar".toList
            ++ List.replicate 97 'c' ++ ['\n'])))
          (some ⟨100, 103, some "a.sol".toList⟩) []
        = .error .undefinedConversion := by
  decide

/-- The highlighted text where the call gets past line 58: for every
single-line span with `0 <= startColumn <= endColumn <= `
line length and `endColumn - startColumn <= 150`, on a line of any length:
lines 75-87 leave a line and a start column at which the highlighted length
cuts out the characters `[startColumn, endColumn)` of the original line; every
output of `printSourceLocation` highlights exactly these characters on the
source line; an output is written whenever the start line is at least 1. -/
theorem highlighted_text_unaltered (m_scannerFromSourceName : ScannerFromSourceNameFun)
    (loc : SourceLocation) (sourceName : Str) (scanner : Scanner) (_msg : Str)
    (startLine startColumn endColumn : Int)
    (hname : loc.sourceName = some sourceName)
    (hfn : m_scannerFromSourceName sourceName = .ok scanner)
    (hstart : scanner.translatePositionToLineColumn loc.start = (startLine, startColumn))
    (hend : scanner.translatePositionToLineColumn loc.end_ = (startLine, endColumn))
    (h0 : 0 ≤ startColumn) (hse : startColumn ≤ endColumn)
    (he : endColumn ≤ (scanner.lineAtPosition loc.start).length)
    (hspan : endColumn - startColumn ≤ 150) :
    (∃ (line2 : Str) (s2 : Nat),
        lineLengthTruncation (scanner.lineAtPosition loc.start) startColumn endColumn
            (endColumn - startColumn)
          = .ok (line2, (s2 : Int), (s2 : Int) + (endColumn - startColumn))
        ∧ (line2.drop s2).take (endColumn - startColumn).toNat
          = ((scanner.lineAtPosition loc.start).drop startColumn.toNat).take
              (endColumn - startColumn).toNat)
      ∧ (∀ out, printSourceLocation m_scannerFromSourceName (some loc) _msg = .ok out →
          ∃ pad before after blanks : Str,
            out = sourceNameHeader pad sourceName startLine startColumn ++ messageLine _msg
              ++ (frameLine pad
                ++ sourceLine startLine before
                    (((scanner.lineAtPosition loc.start).drop startColumn.toNat).take
                      (endColumn - startColumn).toNat)
                    after
                ++ caretLine pad blanks (List.replicate (endColumn - startColumn).toNat '^'))
              ++ put ['\n'])
      ∧ (1 ≤ startLine →
          ∃ out, printSourceLocation m_scannerFromSourceName (some loc) _msg = .ok out) := by
  obtain ⟨s, rfl⟩ := Int.eq_ofNat_of_zero_le h0
  obtain ⟨e, rfl⟩ := Int.eq_ofNat_of_zero_le (show 0 ≤ endColumn by omega)
  have c1 : (e : Int) = (s : Int) + ((e - s : Nat) : Int) := by omega
  have c2 : (e : Int) - (s : Int) = ((e - s : Nat) : Int) := by omega
  have key := fun hline => printSourceLocation_singleLine_layout m_scannerFromSourceName loc
    sourceName scanner _msg startLine s e hname hfn hstart hend hline (by omega) (by omega)
  refine ⟨?_, ?_, ?_⟩
  · obtain ⟨line2, s2, h2, -, hm, -, -⟩ :=
      lineLengthTruncation_singleLine (scanner.lineAtPosition loc.start) s (e - s) (by omega)
    refine ⟨line2, s2, ?_, ?_⟩
    · rw [c2]
      rw [← c1] at h2
      exact h2
    · simp only [c2, Int.toNat_ofNat]
      exact hm
  · intro out hout
    have hline := startLine_pos_of_ok m_scannerFromSourceName loc sourceName scanner _msg
      startLine s hname hfn hstart out hout
    obtain ⟨line1, line2, l, s2, -, -, -, -, -, hm, hshort1, -, -, hprint⟩ := key hline
    obtain ⟨rfl, rfl⟩ := hshort1 (by omega)
    rw [hprint, hm] at hout
    refine ⟨List.replicate (Nat.log 10 startLine.toNat + 1) ' ', line2.take s2,
      line2.drop (s2 + (e - s)),
      (line2.take s2).map (fun ch => if ch = '\t' then '\t' else ' '), ?_⟩
    simp only [c2, Int.toNat_ofNat]
    exact (Except.ok.inj hout).symm
  · intro hline
    obtain ⟨line1, line2, l, s2, -, -, -, -, -, -, -, -, -, hprint⟩ := key hline
    exact ⟨_, hprint⟩

set_option maxRecDepth 1000000 in
/-- The highlighted text at the span `foo` at columns 60-63 of a line of 200
characters, which is line 1 of its source. -/
theorem highlighted_text_unaltered_witness :
    (∃ (line2 : Str) (s2 : Nat),
        lineLengthTruncation ((scannerOfSource
          ('\n' :: List.replicate 60 'a' ++ "foo".toList ++ List.replicate 137 'b')).lineAtPosition 61)
          (60 : Int) (63 : Int)
            ((63 : Int) - (60 : Int))
          = .ok (line2, (s2 : Int), (s2 : Int) + ((63 : Int) - (60 : Int)))
        ∧ (line2.drop s2).take ((63 : Int) - (60 : Int)).toNat
          = (((scannerOfSource
          ('\n' :: List.replicate 60 'a' ++ "foo".toList ++ List.replicate 137 'b')).lineAtPosition
            61).drop (60 : Int).toNat).take
              ((63 : Int) - (60 : Int)).toNat)
      ∧ (∀ out, printSourceLocation (fun _ => .ok (scannerOfSource
          ('\n' :: List.replicate 60 'a' ++ "foo".toList ++ List.replicate 137 'b')))
          (some ⟨61, 64, some "a.sol".toList⟩) "m".toList = .ok out →
          ∃ pad before after blanks : Str,
            out = sourceNameHeader pad "a.sol".toList (1 : Int) (60 : Int) ++ messageLine "m".toList
              ++ (frameLine pad
                ++ sourceLine (1 : Int) before
                    ((((scannerOfSource
          ('\n' :: List.replicate 60 'a' ++ "foo".toList ++ List.replicate 137 'b')).lineAtPosition
            61).drop (60 : Int).toNat).take
                      ((63 : Int) - (60 : Int)).toNat)
                    after
                ++ caretLine pad blanks (List.replicate ((63 : Int) - (60 : Int)).toNat '^'))
              ++ put ['\n'])
      ∧ (1 ≤ (1 : Int) →
          ∃ out, printSourceLocation (fun _ => .ok (scannerOfSource
          ('\n' :: List.replicate 60 'a' ++ "foo".toList ++ List.replicate 137 'b')))
          (some ⟨61, 64, some "a.sol".toList⟩) "m".toList = .ok out) :=
  highlighted_text_unaltered
    (fun _ => .ok (scannerOfSource
      ('\n' :: List.replicate 60 'a' ++ "foo".toList ++ List.replicate 137 'b')))
    ⟨61, 64, some "a.sol".toList⟩ "a.sol".toList
    (scannerOfSource ('\n' :: List.replicate 60 'a' ++ "foo".toList ++ List.replicate 137 'b'))
    "m".toList 1 60 63
    rfl rfl (by decide) (by decide) (by decide) (by decide) (by decide) (by decide)

/-! ## C18: the substring operations of a single-line span -/

/-- C18: for every single-line span with `0 <= startColumn <= endColumn <= `
line length the three stages succeed and every substring operation has a start
index within the current line and a count that is not negative: in line 71
`substr(0, startColumn + 35)` and `substr(endColumn - 35)`, in line 78
`substr(max(0, startColumn - 35), ...)`, and in lines 96-104, with the line
`line2` and the start column `s2` that leave the truncations and
`s2 + l <= line2.length()`, the calls `substr(0, s2)`, `substr(s2, l)`,
`substr(s2 + l)` and the range `[0, s2)`.  The whole call never ends in the
out-of-range error or in the iterator-range error. -/
theorem substring_operations_in_range (m_scannerFromSourceName : ScannerFromSourceNameFun)
    (loc : SourceLocation) (sourceName : Str) (scanner : Scanner) (_msg : Str)
    (startLine startColumn endColumn : Int)
    (hname : loc.sourceName = some sourceName)
    (hfn : m_scannerFromSourceName sourceName = .ok scanner)
    (hstart : scanner.translatePositionToLineColumn loc.start = (startLine, startColumn))
    (hend : scanner.translatePositionToLineColumn loc.end_ = (startLine, endColumn))
    (h0 : 0 ≤ startColumn) (hse : startColumn ≤ endColumn)
    (he : endColumn ≤ (scanner.lineAtPosition loc.start).length) :
    ∃ (line1 line2 : Str) (l s2 : Nat),
      spanLengthTruncation (scanner.lineAtPosition loc.start) startColumn endColumn
          = .ok (line1, startColumn + l, l)
      ∧ (endColumn - startColumn > 150 →
          0 ≤ startColumn + 35 ∧ 0 ≤ endColumn - 35
            ∧ endColumn - 35 ≤ (scanner.lineAtPosition loc.start).length)
      ∧ lineLengthTruncation line1 startColumn (startColumn + l) l
          = .ok (line2, (s2 : Int), (s2 : Int) + l)
      ∧ (line1.length > 150 →
          0 ≤ max 0 (startColumn - 35) ∧ max 0 (startColumn - 35) ≤ line1.length
            ∧ 0 ≤ min startColumn 35 + min ((l : Int) + 35) (line1.length - startColumn))
      ∧ s2 + l ≤ line2.length
      ∧ (∀ w : Nat, ∃ body,
          singleLineCase w startLine line2 s2 ((s2 : Int) + l) l = .ok body)
      ∧ printSourceLocation m_scannerFromSourceName (some loc) _msg ≠ .error .outOfRange
      ∧ printSourceLocation m_scannerFromSourceName (some loc) _msg
          ≠ .error .iteratorRange := by
  obtain ⟨s, rfl⟩ := Int.eq_ofNat_of_zero_le h0
  obtain ⟨e, rfl⟩ := Int.eq_ofNat_of_zero_le (show 0 ≤ endColumn by omega)
  obtain ⟨line1, l, h1, -, hfit1, -, -⟩ :=
    spanLengthTruncation_singleLine (scanner.lineAtPosition loc.start) s e (by omega) (by omega)
  obtain ⟨line2, s2, h2, hfit2, -, -, -⟩ := lineLengthTruncation_singleLine line1 s l hfit1
  refine ⟨line1, line2, l, s2, h1, fun _ => by omega, h2, fun _ => by omega, hfit2, ?_, ?_, ?_⟩
  · intro w
    exact ⟨_, singleLineCase_inRange w startLine line2 s2 ((s2 : Int) + l) l (by omega)
      (by omega) (by omega) (by omega) (by omega)⟩
  · by_cases hline : 1 ≤ startLine
    · obtain ⟨_, _, _, _, -, -, -, -, -, -, -, -, -, hprint⟩ :=
        printSourceLocation_singleLine_layout m_scannerFromSourceName loc sourceName scanner
          _msg startLine s e hname hfn hstart hend hline (by omega) (by omega)
      rw [hprint]
      exact fun h => Except.noConfusion h
    · rw [printSourceLocation_nonpositive_line m_scannerFromSourceName loc sourceName scanner
        _msg startLine s hname hfn hstart (by omega)]
      decide
  · by_cases hline : 1 ≤ startLine
    · obtain ⟨_, _, _, _, -, -, -, -, -, -, -, -, -, hprint⟩ :=
        printSourceLocation_singleLine_layout m_scannerFromSourceName loc sourceName scanner
          _msg startLine s e hname hfn hstart hend hline (by omega) (by omega)
      rw [hprint]
      exact fun h => Except.noConfusion h
    · rw [printSourceLocation_nonpositive_line m_scannerFromSourceName loc sourceName scanner
        _msg startLine s hname hfn hstart (by omega)]
      decide

set_option maxRecDepth 1000000 in
/-- C18 at the span of columns 0-200, the whole of a line of 200 characters. -/
theorem substring_operations_in_range_witness :
    ∃ (line1 line2 : Str) (l s2 : Nat),
      spanLengthTruncation ((scannerOfSource
          ('\n' :: List.replicate 60 'a' ++ "foo".toList ++ List.replicate 137 'b')).lineAtPosition 1)
          (0 : Int) (200 : Int)
          = .ok (line1, (0 : Int) + l, l)
      ∧ ((200 : Int) - (0 : Int) > 150 →
          0 ≤ (0 : Int) + 35 ∧ 0 ≤ (200 : Int) - 35
            ∧ (200 : Int) - 35 ≤ ((scannerOfSource
          ('\n' :: List.replicate 60 'a' ++ "foo".toList ++ List.replicate 137 'b')).lineAtPosition 1).length)
      ∧ lineLengthTruncation line1 (0 : Int) ((0 : Int) + l) l
          = .ok (line2, (s2 : Int), (s2 : Int) + l)
      ∧ (line1.length > 150 →
          0 ≤ max 0 ((0 : Int) - 35) ∧ max 0 ((0 : Int) - 35) ≤ line1.length
            ∧ 0 ≤ min (0 : Int) 35 + min ((l : Int) + 35) (line1.length - (0 : Int)))
      ∧ s2 + l ≤ line2.length
      ∧ (∀ w : Nat, ∃ body,
          singleLineCase w (1 : Int) line2 s2 ((s2 : Int) + l) l = .ok body)
      ∧ printSourceLocation (fun _ => .ok (scannerOfSource
          ('\n' :: List.replicate 60 'a' ++ "foo".toList ++ List.replicate 137 'b')))
          (some ⟨1, 201, some "a.sol".toList⟩) "m".toList ≠ .error .outOfRange
      ∧ printSourceLocation (fun _ => .ok (scannerOfSource
          ('\n' :: List.replicate 60 'a' ++ "foo".toList ++ List.replicate 137 'b')))
          (some ⟨1, 201, some "a.sol".toList⟩) "m".toList
          ≠ .error .iteratorRange :=
  substring_operations_in_range
    (fun _ => .ok (scannerOfSource
      ('\n' :: List.replicate 60 'a' ++ "foo".toList ++ List.replicate 137 'b')))
    ⟨1, 201, some "a.sol".toList⟩ "a.sol".toList
    (scannerOfSource ('\n' :: List.replicate 60 'a' ++ "foo".toList ++ List.replicate 137 'b'))
    "m".toList 1 0 200
    rfl rfl (by decide) (by decide) (by decide) (by decide) (by decide)

/-! ## C19: the length of the rendered source text -/

/-- C19: for every single-line span with `0 <= startColumn <= endColumn <= `
line length, on a line of any length.  First, the line that leaves the two
truncations is what lines 96-98 cut into prefix, highlighted region and suffix;
it has at most 229 characters, and it is the line that entered lines 75-87
when that has at most 150 characters, so that the line-length truncation does
not fire.  Second, every output of `printSourceLocation` places after the frame
margin of the source line a text (`before`, `marked`, `after`) of at most 229
characters, and of at most 150 when the line-length truncation does not fire.
Third, an output is written whenever the start line is at least 1. -/
theorem rendered_source_text_bounded (m_scannerFromSourceName : ScannerFromSourceNameFun)
    (loc : SourceLocation) (sourceName : Str) (scanner : Scanner) (_msg : Str)
    (startLine startColumn endColumn : Int)
    (hname : loc.sourceName = some sourceName)
    (hfn : m_scannerFromSourceName sourceName = .ok scanner)
    (hstart : scanner.translatePositionToLineColumn loc.start = (startLine, startColumn))
    (hend : scanner.translatePositionToLineColumn loc.end_ = (startLine, endColumn))
    (h0 : 0 ≤ startColumn) (hse : startColumn ≤ endColumn)
    (he : endColumn ≤ (scanner.lineAtPosition loc.start).length) :
    (∃ (line1 line2 : Str) (l s2 : Nat),
        spanLengthTruncation (scanner.lineAtPosition loc.start) startColumn endColumn
          = .ok (line1, startColumn + l, l)
        ∧ lineLengthTruncation line1 startColumn (startColumn + l) l
          = .ok (line2, (s2 : Int), (s2 : Int) + l)
        ∧ line2.take s2 ++ (line2.drop s2).take l ++ line2.drop (s2 + l) = line2
        ∧ line2.length ≤ 229
        ∧ (line1.length ≤ 150 → line2 = line1))
      ∧ (∀ out, printSourceLocation m_scannerFromSourceName (some loc) _msg = .ok out →
      ∃ pad before marked after blanks carets : Str,
        out = sourceNameHeader pad sourceName startLine startColumn ++ messageLine _msg
            ++ (frameLine pad ++ sourceLine startLine before marked after
              ++ caretLine pad blanks carets)
            ++ put ['\n']
        ∧ (before ++ marked ++ after).length ≤ 229
        ∧ (∀ (line1 : Str) (e1 l1 : Int),
            spanLengthTruncation (scanner.lineAtPosition loc.start) startColumn endColumn
              = .ok (line1, e1, l1) →
            line1.length ≤ 150 → (before ++ marked ++ after).length ≤ 150))
      ∧ (1 ≤ startLine →
          ∃ out, printSourceLocation m_scannerFromSourceName (some loc) _msg = .ok out) := by
  obtain ⟨s, rfl⟩ := Int.eq_ofNat_of_zero_le h0
  obtain ⟨e, rfl⟩ := Int.eq_ofNat_of_zero_le (show 0 ≤ endColumn by omega)
  have key := fun hline => printSourceLocation_singleLine_layout m_scannerFromSourceName loc
    sourceName scanner _msg startLine s e hname hfn hstart hend hline (by omega) (by omega)
  refine ⟨?_, ?_, ?_⟩
  · obtain ⟨line1, l, h1, hl, hfit1, -, -⟩ :=
      spanLengthTruncation_singleLine (scanner.lineAtPosition loc.start) s e (by omega)
        (by omega)
    obtain ⟨line2, s2, h2, -, -, hshort2, hlong2⟩ :=
      lineLengthTruncation_singleLine line1 s l hfit1
    refine ⟨line1, line2, l, s2, h1, h2, take_mid_drop line2 s2 l, ?_,
      fun h => (hshort2 h).1⟩
    by_cases hlen : line1.length ≤ 150
    · obtain ⟨rfl, -⟩ := hshort2 hlen
      omega
    · have := hlong2 (by omega)
      omega
  · intro out hout
    have hline := startLine_pos_of_ok m_scannerFromSourceName loc sourceName scanner _msg
      startLine s hname hfn hstart out hout
    obtain ⟨line1, line2, l, s2, h1, -, hl, -, -, -, -, hshort2, hlong2, hprint⟩ := key hline
    rw [hprint] at hout
    refine ⟨List.replicate (Nat.log 10 startLine.toNat + 1) ' ', line2.take s2,
      (line2.drop s2).take l, line2.drop (s2 + l),
      (line2.take s2).map (fun ch => if ch = '\t' then '\t' else ' '),
      List.replicate l '^', (Except.ok.inj hout).symm, ?_, ?_⟩
    · rw [take_mid_drop]
      by_cases hlen : line1.length ≤ 150
      · obtain ⟨rfl, -⟩ := hshort2 hlen
        omega
      · have := hlong2 (by omega)
        omega
    · intro line1' e1 l1 hs hlen
      rw [h1] at hs
      simp only [Except.ok.injEq, Prod.mk.injEq] at hs
      obtain ⟨rfl, -, -⟩ := hs
      obtain ⟨rfl, -⟩ := hshort2 hlen
      rw [take_mid_drop]
      exact hlen
  · intro hline
    obtain ⟨line1, line2, l, s2, -, -, -, -, -, -, -, -, -, hprint⟩ := key hline
    exact ⟨_, hprint⟩

set_option maxRecDepth 1000000 in
/-- C19 at the span of columns 20-190 of a line of 200 characters. -/
theorem rendered_source_text_bounded_witness :
    (∃ (line1 line2 : Str) (l s2 : Nat),
        spanLengthTruncation ((scannerOfSource
          ('\n' :: List.replicate 60 'a' ++ "foo".toList ++ List.replicate 137 'b')).lineAtPosition 21)
          (20 : Int) (190 : Int)
          = .ok (line1, (20 : Int) + l, l)
        ∧ lineLengthTruncation line1 (20 : Int) ((20 : Int) + l) l
          = .ok (line2, (s2 : Int), (s2 : Int) + l)
        ∧ line2.take s2 ++ (line2.drop s2).take l ++ line2.drop (s2 + l) = line2
        ∧ line2.length ≤ 229
        ∧ (line1.length ≤ 150 → line2 = line1))
      ∧ (∀ out, printSourceLocation (fun _ => .ok (scannerOfSource
          ('\n' :: List.replicate 60 'a' ++ "foo".toList ++ List.replicate 137 'b')))
          (some ⟨21, 191, some "a.sol".toList⟩) "m".toList = .ok out →
      ∃ pad before marked after blanks carets : Str,
        out = sourceNameHeader pad "a.sol".toList (1 : Int) (20 : Int) ++ messageLine "m".toList
            ++ (frameLine pad ++ sourceLine (1 : Int) before marked after
              ++ caretLine pad blanks carets)
            ++ put ['\n']
        ∧ (before ++ marked ++ after).length ≤ 229
        ∧ (∀ (line1 : Str) (e1 l1 : Int),
            spanLengthTruncation ((scannerOfSource
          ('\n' :: List.replicate 60 'a' ++ "foo".toList ++ List.replicate 137 'b')).lineAtPosition 21)
          (20 : Int) (190 : Int)
              = .ok (line1, e1, l1) →
            line1.length ≤ 150 → (before ++ marked ++ after).length ≤ 150))
      ∧ (1 ≤ (1 : Int) →
          ∃ out, printSourceLocation (fun _ => .ok (scannerOfSource
          ('\n' :: List.replicate 60 'a' ++ "foo".toList ++ List.replicate 137 'b')))
          (some ⟨21, 191, some "a.sol".toList⟩) "m".toList = .ok out) :=
  rendered_source_text_bounded
    (fun _ => .ok (scannerOfSource
      ('\n' :: List.replicate 60 'a' ++ "foo".toList ++ List.replicate 137 'b')))
    ⟨21, 191, some "a.sol".toList⟩ "a.sol".toList
    (scannerOfSource ('\n' :: List.replicate 60 'a' ++ "foo".toList ++ List.replicate 137 'b'))
    "m".toList 1 20 190
    rfl rfl (by decide) (by decide) (by decide) (by decide) (by decide)

end langutil
